import Mathlib

/-!
Verification of the infrasee-cli resource-discovery core.

This file gives a shallow embedding, in Lean 4, of the parts of the
infrasee-cli TypeScript sources that the verified claims are about:

* `src/utils/csv.ts` — the reconciliation engine `combineDomainData`
  (the second, GCP-aware version of the file, lines 147-286) and its
  output row type `CombinedDomainInfo`;
* `src/utils/security.ts` — the IP validator `isValidIP`;
* `src/api/cloudflare.ts` — the Cloudflare record matcher inside
  `findDomainsByIP`, and the `GCPAPI` class (`discoverProjects`,
  `testConnection`, `getComputeInstances`, the compute section of
  `findResourcesByIP`);
* `src/api/digitalocean.ts` — the domain-record matcher inside
  `findResourcesByIP`;
* the Coolify adapter (`CoolifyAPI.findResourcesByIP`);
* the `all ip` CLI action (exit-code and warning behaviour).

Modelling conventions: JavaScript strings are Lean `String`s and all
`===` comparisons are string equality; a JS `Set` is a list deduplicated
keeping first occurrences (`dedupFirst`), which has the same membership
and the same insertion-order iteration as a JS `Set`; optional /
possibly-`undefined` fields are `Option`; JS truthiness of an optional
string (`undefined` and `""` are falsy) is `jsStrTruthy`; network calls
are passed in as explicit functions returning `Except`, so a thrown
exception is `.error`; `Array.prototype.sort` (stable since ES2019) with
the comparator `a.domain.localeCompare(b.domain)` is modelled as the
stable `List.insertionSort` under code-point lexicographic order on the
`domain` field (`lexLe`); `new URL(u).hostname` is modelled by
`urlHostname`, which takes the characters after `"://"` up to the first
`/`, `:`, `?` or `#`.
-/

/-- Lexicographic (code-point) comparison of character lists; this models
the string ordering used to sort the canonical inventory. -/
def lexLe : List Char → List Char → Bool
  | [], _ => true
  | _ :: _, [] => false
  | a :: as, b :: bs =>
    if a.toNat < b.toNat then true
    else if b.toNat < a.toNat then false
    else lexLe as bs

/-- Split a character list on a separator character; models
`String.prototype.split` with a single-character separator. -/
def splitOnChar (sep : Char) : List Char → List (List Char)
  | [] => [[]]
  | c :: cs =>
    match splitOnChar sep cs with
    | [] => [[c]]
    | p :: ps => if c = sep then [] :: p :: ps else (c :: p) :: ps

/-- Deduplication keeping the first occurrence of each element, given the
elements already seen; models insertion into a JS `Set`. -/
def dedupFirstAux (seen : List String) : List String → List String
  | [] => []
  | a :: l =>
    if seen.contains a then dedupFirstAux seen l
    else a :: dedupFirstAux (a :: seen) l

/-- The distinct elements of a list in first-occurrence order: the
iteration order of a JS `Set` built by inserting the list in order. -/
def dedupFirst (l : List String) : List String :=
  dedupFirstAux [] l

/-- JS truthiness of an optional string field: `undefined` and `""` are
falsy, everything else truthy. -/
def jsStrTruthy (o : Option String) : Bool :=
  match o with
  | some s => !(s == "")
  | none => false

/-- JS `a || b` on two optional strings (used for
`serverMatch?.name || app.destination?.server?.name`). -/
def jsOrStr (a b : Option String) : Option String :=
  match a with
  | some s => if s == "" then b else some s
  | none => b

/-- Characters of a URL after the `"://"` scheme separator (empty if the
separator is absent). -/
def afterSchemeSep : List Char → List Char
  | ':' :: '/' :: '/' :: rest => rest
  | _ :: t => afterSchemeSep t
  | [] => []

/-- Model of `new URL(u).hostname` for the well-formed `http(s)` URLs the
providers return: the characters after `"://"` up to the first `/`, `:`,
`?` or `#`. -/
def urlHostname (u : String) : String :=
  ⟨(afterSchemeSep u.data).takeWhile (fun c => !(c = '/' || c = ':' || c = '?' || c = '#'))⟩

/-- Last segment of a `/`-separated path; models `s.split('/').pop()`. -/
def lastPathSegment (s : String) : String :=
  ⟨(splitOnChar '/' s.data).getLastD []⟩

/-- Cloudflare DNS record (`DNSRecord` in `src/api/cloudflare.ts`); only
the fields read by the embedded code paths are carried. -/
structure DNSRecord where
  name : String
  rtype : String
  content : String
  zone_name : String
deriving DecidableEq, Repr

/-- A Coolify resource as produced by `CoolifyAPI.findResourcesByIP`
(`CoolifyResource` in the Coolify adapter). -/
structure CoolifyResource where
  rtype : String
  name : String
  fqdn : Option String
  status : Option String
  server_ip : Option String
  server_name : Option String
  environment : Option String
deriving DecidableEq, Repr

/-- A DigitalOcean resource as produced by
`DigitalOceanAPI.findResourcesByIP`; `domain` is set only on
`domain_record` resources. -/
structure DOResource where
  rtype : String
  name : String
  ip_address : String
  domain : Option String
deriving DecidableEq, Repr

/-- A GCP resource as produced by `GCPAPI.findResourcesByIP`
(`GCPResource` in `src/api/cloudflare.ts`); `url` is set only on
`cloud_run` resources. -/
structure GCPResource where
  rtype : String
  name : String
  ip_address : String
  url : Option String
deriving DecidableEq, Repr

/-- One row of the canonical inventory (`CombinedDomainInfo` in
`src/utils/csv.ts`): the `dns` field is the provider-combination label. -/
structure CombinedDomainInfo where
  ip : String
  domain : String
  dns : String
  inCoolify : Bool
  inDigitalOcean : Bool
  inGCP : Bool
  resourceType : String
deriving DecidableEq, Repr

/-- The `coolifyDomains` set of `combineDomainData`: FQDNs of Coolify
resources with a truthy `fqdn`, in JS-`Set` iteration order. -/
def coolifyDomains (coo : List CoolifyResource) : List String :=
  dedupFirst (coo.filterMap (fun r => if jsStrTruthy r.fqdn then some (r.fqdn.getD "") else none))

/-- The `digitalOceanDomains` set of `combineDomainData`. -/
def digitalOceanDomains (d : List DOResource) : List String :=
  dedupFirst (d.filterMap (fun r => if jsStrTruthy r.domain then some (r.domain.getD "") else none))

/-- The `digitalOceanResourceNames` set of `combineDomainData`. -/
def digitalOceanResourceNames (d : List DOResource) : List String :=
  dedupFirst (d.map (fun r => r.name))

/-- The `gcpResourceNames` set of `combineDomainData`. -/
def gcpResourceNames (g : List GCPResource) : List String :=
  dedupFirst (g.map (fun r => r.name))

/-- The `gcpUrls` set of `combineDomainData`: hostnames of GCP resources
with a truthy `url`. -/
def gcpUrls (g : List GCPResource) : List String :=
  dedupFirst (g.filterMap (fun r => if jsStrTruthy r.url then some (urlHostname (r.url.getD "")) else none))

/-- The `cloudflareDomains` set of `combineDomainData` (names of all
Cloudflare records; fully built before the later loops read it). -/
def cloudflareDomains (cf : List DNSRecord) : List String :=
  dedupFirst (cf.map (fun r => r.name))

/-- The identifier the DigitalOcean loop of `combineDomainData` assigns
to a resource: its `domain` when truthy, else its bare `name`. -/
def doIdentifier (r : DOResource) : String :=
  if jsStrTruthy r.domain then r.domain.getD "" else r.name

/-- The identifier the GCP loop of `combineDomainData` assigns to a
resource: `resourceUrl || resourceName`, where `resourceUrl` is the URL
hostname when `url` is truthy. -/
def gcpIdentifier (r : GCPResource) : String :=
  match (if jsStrTruthy r.url then some (urlHostname (r.url.getD "")) else none) with
  | some h => if h == "" then r.name else h
  | none => r.name

/-- The hard-coded label chain of the Cloudflare loop of
`combineDomainData` (lines 183-198). -/
def cfDnsChain (inCoolify inDigitalOcean inGCP : Bool) : String :=
  if inCoolify && inDigitalOcean && inGCP then "all"
  else if inCoolify && inDigitalOcean then "cloudflare+coolify+digitalocean"
  else if inCoolify && inGCP then "cloudflare+coolify+gcp"
  else if inDigitalOcean && inGCP then "cloudflare+digitalocean+gcp"
  else if inCoolify then "cloudflare+coolify"
  else if inDigitalOcean then "cloudflare+digitalocean"
  else if inGCP then "cloudflare+gcp"
  else "cloudflare"

/-- The hard-coded label chain of the Coolify-only loop of
`combineDomainData` (lines 215-222). -/
def cooDnsChain (inDigitalOcean inGCP : Bool) : String :=
  if inDigitalOcean && inGCP then "coolify+digitalocean+gcp"
  else if inDigitalOcean then "coolify+digitalocean"
  else if inGCP then "coolify+gcp"
  else "coolify"

/-- First loop of `combineDomainData`: one entry per Cloudflare record,
with membership flags and the hard-coded label chain of the source. -/
def cloudflareEntries (ip : String) (cf : List DNSRecord) (coo : List CoolifyResource)
    (d : List DOResource) (g : List GCPResource) : List CombinedDomainInfo :=
  cf.map (fun record =>
    let inCoolify := (coolifyDomains coo).contains record.name
    let inDigitalOcean := (digitalOceanDomains d).contains record.name
      || (digitalOceanResourceNames d).contains record.name
    let inGCP := (gcpResourceNames g).contains record.name || (gcpUrls g).contains record.name
    { ip := ip, domain := record.name, dns := cfDnsChain inCoolify inDigitalOcean inGCP,
      inCoolify := inCoolify,
      inDigitalOcean := inDigitalOcean, inGCP := inGCP, resourceType := "domain" })

/-- Second loop of `combineDomainData`: Coolify-only domains (iterating
the `coolifyDomains` set, skipping names already seen via Cloudflare). -/
def coolifyOnlyEntries (ip : String) (cf : List DNSRecord) (coo : List CoolifyResource)
    (d : List DOResource) (g : List GCPResource) : List CombinedDomainInfo :=
  ((coolifyDomains coo).filter (fun domain => !((cloudflareDomains cf).contains domain))).map
    (fun domain =>
      let inDigitalOcean := (digitalOceanDomains d).contains domain
        || (digitalOceanResourceNames d).contains domain
      let inGCP := (gcpResourceNames g).contains domain || (gcpUrls g).contains domain
      { ip := ip, domain := domain, dns := cooDnsChain inDigitalOcean inGCP, inCoolify := true,
        inDigitalOcean := inDigitalOcean, inGCP := inGCP, resourceType := "domain" })

/-- Resource-type string the DigitalOcean loop assigns. -/
def doResourceType (r : DOResource) : String :=
  if r.rtype == "droplet" then "droplet"
  else if r.rtype == "load_balancer" then "load_balancer"
  else if r.rtype == "floating_ip" then "floating_ip"
  else "domain"

/-- Third loop of `combineDomainData`: DigitalOcean resources, skipping
identifiers already seen via Cloudflare or Coolify. -/
def digitalOceanEntries (ip : String) (cf : List DNSRecord) (coo : List CoolifyResource)
    (d : List DOResource) : List CombinedDomainInfo :=
  (d.filter (fun r =>
      !((cloudflareDomains cf).contains (doIdentifier r)
        || (coolifyDomains coo).contains (doIdentifier r)))).map
    (fun r =>
      { ip := ip, domain := doIdentifier r, dns := "digitalocean", inCoolify := false,
        inDigitalOcean := true, inGCP := false, resourceType := doResourceType r })

/-- Resource-type string the GCP loop assigns. -/
def gcpResourceTypeOf (r : GCPResource) : String :=
  if r.rtype == "compute_instance" then "compute_instance"
  else if r.rtype == "load_balancer" then "load_balancer"
  else if r.rtype == "cloud_run" then "cloud_run"
  else if r.rtype == "gke_cluster" then "gke_cluster"
  else if r.rtype == "gke_service" then "gke_service"
  else "domain"

/-- Fourth loop of `combineDomainData`: GCP resources, skipping
identifiers already seen via Cloudflare, Coolify or the DigitalOcean
resource-name set. -/
def gcpEntries (ip : String) (cf : List DNSRecord) (coo : List CoolifyResource)
    (d : List DOResource) (g : List GCPResource) : List CombinedDomainInfo :=
  (g.filter (fun r =>
      !((cloudflareDomains cf).contains (gcpIdentifier r)
        || (coolifyDomains coo).contains (gcpIdentifier r)
        || (digitalOceanResourceNames d).contains (gcpIdentifier r)))).map
    (fun r =>
      { ip := ip, domain := gcpIdentifier r, dns := "gcp", inCoolify := false,
        inDigitalOcean := false, inGCP := true, resourceType := gcpResourceTypeOf r })

/-- Ordering of canonical entries by identifier, modelling the comparator
`(a, b) => a.domain.localeCompare(b.domain)`. -/
def entryLe (a b : CombinedDomainInfo) : Prop :=
  lexLe a.domain.data b.domain.data = true

instance : DecidableRel entryLe :=
  fun a b => inferInstanceAs (Decidable (_ = true))

/-- The reconciliation engine `combineDomainData` of `src/utils/csv.ts`
(lines 147-286): the four provider loops in source order, then the final
stable sort by identifier. -/
def combineDomainData (ip : String) (cloudflareRecords : List DNSRecord)
    (coolifyResources : List CoolifyResource) (digitalOceanResources : List DOResource)
    (gcpResources : List GCPResource) : List CombinedDomainInfo :=
  List.insertionSort entryLe
    (cloudflareEntries ip cloudflareRecords coolifyResources digitalOceanResources gcpResources
      ++ coolifyOnlyEntries ip cloudflareRecords coolifyResources digitalOceanResources gcpResources
      ++ digitalOceanEntries ip cloudflareRecords coolifyResources digitalOceanResources
      ++ gcpEntries ip cloudflareRecords coolifyResources digitalOceanResources gcpResources)

/-- Membership of a character in the language of the regex class `[0-9]`
(code points 48-57). -/
def isDigitChar (c : Char) : Bool :=
  decide (48 ≤ c.toNat) && decide (c.toNat ≤ 57)

/-- Membership of a character in the language of `[0-9a-fA-F]`. -/
def isHexChar (c : Char) : Bool :=
  isDigitChar c || (decide (97 ≤ c.toNat) && decide (c.toNat ≤ 102))
    || (decide (65 ≤ c.toNat) && decide (c.toNat ≤ 70))

/-- Membership of a token in the language of the IPv4 octet alternation
`25[0-5]|2[0-4][0-9]|[01]?[0-9][0-9]?` of the `isValidIP` regex in
`src/utils/security.ts`, arranged by token length: one digit or two
digits (the `[01]?` branch empty or merged), or three characters from
`25[0-5]`, `2[0-4][0-9]` or `[01][0-9][0-9]` (code points: `'0'` is 48,
`'1'` 49, `'2'` 50, `'4'` 52, `'5'` 53). -/
def isOctetToken (cs : List Char) : Bool :=
  match cs with
  | [c] => isDigitChar c
  | [c, d] => isDigitChar c && isDigitChar d
  | [c, d, e] =>
    (decide (c.toNat = 50) && decide (d.toNat = 53)
      && (decide (48 ≤ e.toNat) && decide (e.toNat ≤ 53)))
    || (decide (c.toNat = 50) && (decide (48 ≤ d.toNat) && decide (d.toNat ≤ 52))
      && isDigitChar e)
    || ((decide (c.toNat = 48) || decide (c.toNat = 49)) && isDigitChar d && isDigitChar e)
  | _ => false

/-- Whether a character list contains two adjacent colons (the substring
`"::"` of every compressed IPv6 form). -/
def hasDoubleColon : List Char → Bool
  | c₁ :: c₂ :: t => ((c₁ == ':') && (c₂ == ':')) || hasDoubleColon (c₂ :: t)
  | _ => false

/-- Membership in the language of the anchored IPv4 pattern
`^(octet\.){3}octet$`: exactly four `.`-separated octet tokens (octet
tokens contain no dots, so the anchored regex match decomposes the string
exactly as `splitOnChar '.'` does). -/
def isValidIPv4 (s : String) : Bool :=
  match splitOnChar '.' s.data with
  | [a, b, c, d] => isOctetToken a && isOctetToken b && isOctetToken c && isOctetToken d
  | _ => false

/-- Membership of a token in the language of `[0-9a-fA-F]{1,4}`. -/
def isHexGroup (cs : List Char) : Bool :=
  decide (1 ≤ cs.length) && decide (cs.length ≤ 4) && cs.all isHexChar

/-- Membership in the language of the anchored IPv6 pattern
`^([0-9a-fA-F]{1,4}:){7}[0-9a-fA-F]{1,4}$`: exactly eight `:`-separated
groups of one to four hex digits. -/
def isValidIPv6 (s : String) : Bool :=
  match splitOnChar ':' s.data with
  | groups => decide (groups.length = 8) && groups.all isHexGroup

/-- The IP validator `isValidIP` of `src/utils/security.ts`:
`ipv4Pattern.test(ip) || ipv6Pattern.test(ip)`. -/
def isValidIP (ip : String) : Bool :=
  isValidIPv4 ip || isValidIPv6 ip

/-- Numeric value of a digit string (used to state the octet range). -/
def digitsValue (cs : List Char) : Nat :=
  cs.foldl (fun a c => 10 * a + (c.toNat - 48)) 0

/-- Outcome of one configured provider's run within the `all ip` command:
connection-test failure, a thrown error with its message, or a successful
discovery returning resources. -/
inductive ProviderRun (α : Type) where
  | connectFailed
  | threw (msg : String)
  | ok (resources : List α)
deriving DecidableEq

/-- Input of the `all ip` action: the IP argument and, per provider,
`none` when the provider is not configured, otherwise its run outcome. -/
structure AllIpInput where
  ip : String
  cloudflare : Option (ProviderRun DNSRecord)
  coolify : Option (ProviderRun CoolifyResource)
  digitalocean : Option (ProviderRun DOResource)
  gcp : Option (ProviderRun GCPResource)

/-- Result of the `all ip` action: early `process.exit(1)` on a malformed
IP, early `process.exit(1)` when no provider is configured, or a
completed run carrying the warnings list and the per-provider resource
lists (failed providers contribute empty lists). -/
inductive AllIpOutcome where
  | invalidIP
  | noProviders
  | completed (warnings : List String) (cloudflareRecords : List DNSRecord)
      (coolifyResources : List CoolifyResource) (digitalOceanResources : List DOResource)
      (gcpResources : List GCPResource)
deriving DecidableEq

/-- Resources a provider contributes: its list on success, empty when it
is unconfigured or failed. -/
def providerResults {α : Type} (r : Option (ProviderRun α)) : List α :=
  match r with
  | some (ProviderRun.ok l) => l
  | _ => []

/-- Warning entries a provider contributes to the `errors` list of the
`all ip` action. -/
def providerWarnings {α : Type} (name : String) (r : Option (ProviderRun α)) : List String :=
  match r with
  | some ProviderRun.connectFailed => ["Failed to connect to " ++ name ++ " API"]
  | some (ProviderRun.threw m) => [name ++ ": " ++ m]
  | _ => []

/-- The `all ip` command action (`src/cli.ts`): validate the IP, require
at least one configured provider, then run each configured provider in
order, collecting failures as warnings and completing normally. -/
def allIpAction (inp : AllIpInput) : AllIpOutcome :=
  if !isValidIP inp.ip then AllIpOutcome.invalidIP
  else if inp.cloudflare.isNone && inp.coolify.isNone
      && inp.digitalocean.isNone && inp.gcp.isNone then AllIpOutcome.noProviders
  else
    AllIpOutcome.completed
      (providerWarnings "Cloudflare" inp.cloudflare ++ providerWarnings "Coolify" inp.coolify
        ++ providerWarnings "DigitalOcean" inp.digitalocean ++ providerWarnings "GCP" inp.gcp)
      (providerResults inp.cloudflare) (providerResults inp.coolify)
      (providerResults inp.digitalocean) (providerResults inp.gcp)

/-- Process exit code of an `all ip` outcome: `process.exit(1)` on the
two early aborts, implicit exit 0 on completion. -/
def exitCode : AllIpOutcome → Nat
  | AllIpOutcome.invalidIP => 1
  | AllIpOutcome.noProviders => 1
  | AllIpOutcome.completed _ _ _ _ _ => 0

/-- The record filter of `CloudflareAPI.findDomainsByIP`
(`src/api/cloudflare.ts` lines 138-141): address-type records whose
`content` is strictly equal (`===`) to the queried IP. -/
def cfRecordMatches (ipAddress : String) (record : DNSRecord) : Bool :=
  (record.rtype == "A" || record.rtype == "AAAA") && record.content == ipAddress

/-- Pure model of `CloudflareAPI.findDomainsByIP` over already-fetched
data: for each zone (name paired with its records), keep the records
matching the IP and stamp them with the zone name. -/
def cloudflareFindDomainsByIP (ipAddress : String)
    (zones : List (String × List DNSRecord)) : List DNSRecord :=
  zones.bind (fun zone =>
    ((zone.2.filter (cfRecordMatches ipAddress)).map (fun record =>
      { record with zone_name := zone.1 })))

/-- A DigitalOcean domain record (fields read by the domain-record
section of `DigitalOceanAPI.findResourcesByIP`). -/
structure DODomainRecord where
  rtype : String
  name : String
  data : String
deriving DecidableEq, Repr

/-- The domain-record matcher of `DigitalOceanAPI.findResourcesByIP`
(`src/api/digitalocean.ts` lines 357-358): A/AAAA records whose `data`
is strictly equal (`===`) to the queried IP. -/
def doRecordMatches (ipAddress : String) (record : DODomainRecord) : Bool :=
  (record.rtype == "A" || record.rtype == "AAAA") && record.data == ipAddress

/-- The domain-record section of `DigitalOceanAPI.findResourcesByIP`
(lines 352-369) over already-fetched data: for each domain (name paired
with its records), push a `domain_record` resource per matching record,
expanding `@` to the apex name. -/
def doDomainRecordResources (ipAddress : String)
    (domains : List (String × List DODomainRecord)) : List DOResource :=
  domains.bind (fun domain =>
    ((domain.2.filter (doRecordMatches ipAddress)).map (fun record =>
      { rtype := "domain_record",
        name := if record.name == "@" then domain.1 else record.name ++ "." ++ domain.1,
        ip_address := record.data,
        domain := some domain.1 })))

/-- One project entry of a Cloud Resource Manager `projects.list` page. -/
structure GCPProjectEntry where
  projectId : Option String
deriving DecidableEq, Repr

/-- One page of the `projects.list` response: the optional `projects`
array and the optional continuation token. -/
structure GCPProjectPage where
  projects : Option (List GCPProjectEntry)
  nextPageToken : Option String
deriving DecidableEq, Repr

/-- Project ids collected from one page: entries with a truthy
`projectId` (mirrors `if (project.projectId)`); `none` when the response
has no `projects` array. -/
def pageProjectIds (page : GCPProjectPage) : List String :=
  match page.projects with
  | some entries =>
      entries.filterMap (fun e =>
        match e.projectId with
        | some pid => if pid == "" then none else some pid
        | none => none)
  | none => []

/-- The pagination `while (nextPageToken)` loop of
`GCPAPI.discoverProjects`, with fuel bounding the unbounded source loop;
a failed page fetch propagates as an error (the source re-throws). -/
def discoverProjectsLoop (call : Option String → Except String GCPProjectPage) :
    Nat → String → Except String (List String)
  | 0, _ => Except.ok []
  | fuel + 1, token =>
    match call (some token) with
    | Except.error e => Except.error e
    | Except.ok page =>
      let ids := pageProjectIds page
      match page.nextPageToken with
      | none => Except.ok ids
      | some t2 =>
        match discoverProjectsLoop call fuel t2 with
        | Except.error e => Except.error e
        | Except.ok rest => Except.ok (ids ++ rest)

/-- `GCPAPI.discoverProjects` (`src/api/cloudflare.ts` lines 330-380):
without auto-discovery it returns the configured ids; with it, the first
`projects.list` call's failure is re-thrown, an absent `projects` array
short-circuits to the empty id list (the source only paginates inside
`if (response.projects && Array.isArray(response.projects))`), and
otherwise pagination follows `nextPageToken`. -/
def discoverProjects (autoDiscover : Bool) (configuredIds : List String)
    (call : Option String → Except String GCPProjectPage) (fuel : Nat) :
    Except String (List String) :=
  if !autoDiscover then Except.ok configuredIds
  else
    match call none with
    | Except.error e => Except.error e
    | Except.ok page =>
      match page.projects with
      | none => Except.ok []
      | some _ =>
        let ids := pageProjectIds page
        match page.nextPageToken with
        | none => Except.ok ids
        | some t =>
          match discoverProjectsLoop call fuel t with
          | Except.error e => Except.error e
          | Except.ok rest => Except.ok (ids ++ rest)

/-- Outcome of `GCPAPI.testConnection`: the returned Boolean plus the
console messages this code path prints (only the distinguishing
`"No accessible projects found"` log is modelled). -/
structure TestConnectionOutcome where
  connected : Bool
  messages : List String
deriving DecidableEq, Repr

/-- `GCPAPI.testConnection` (`src/api/cloudflare.ts` lines 382-408): with
auto-discovery, a discovery failure is caught and yields `false`; an
empty discovered set logs `"No accessible projects found"` and yields
`false`; a non-empty set yields `true`. Without auto-discovery, an empty
configured list yields `false`, otherwise the probe of the first project
decides. -/
def gcpTestConnection (autoDiscover : Bool) (configuredIds : List String)
    (call : Option String → Except String GCPProjectPage) (fuel : Nat)
    (probeProject : String → Except String Unit) : TestConnectionOutcome :=
  if autoDiscover then
    match discoverProjects true configuredIds call fuel with
    | Except.error _ => { connected := false, messages := [] }
    | Except.ok [] => { connected := false, messages := ["No accessible projects found"] }
    | Except.ok (_ :: _) => { connected := true, messages := [] }
  else
    match configuredIds with
    | [] => { connected := false, messages := [] }
    | pid :: _ =>
      match probeProject pid with
      | Except.ok _ => { connected := true, messages := [] }
      | Except.error _ => { connected := false, messages := [] }

/-- An access config of a GCP compute network interface. -/
structure GCPAccessConfig where
  natIP : String
deriving DecidableEq, Repr

/-- A network interface of a GCP compute instance. -/
structure GCPNetworkInterface where
  networkIP : String
  accessConfigs : Option (List GCPAccessConfig)
deriving DecidableEq, Repr

/-- A GCP compute instance (`GCPComputeInstance`); `projectId` is stamped
on by `getComputeInstances`. -/
structure GCPComputeInstance where
  name : String
  zone : String
  status : String
  projectId : Option String
  networkInterfaces : Option (List GCPNetworkInterface)
deriving DecidableEq, Repr

/-- One zone group of the aggregated instance listing: the optional
`instances` array (mirrors the `'instances' in item` check). -/
structure GCPZoneGroup where
  instances : Option (List GCPComputeInstance)
deriving DecidableEq, Repr

/-- Instances of one aggregated-list response, flattened over its zone
groups. -/
def zoneGroupInstances (groups : List GCPZoneGroup) : List GCPComputeInstance :=
  groups.bind (fun group =>
    match group.instances with
    | some l => l
    | none => [])

/-- Instances of one project's response, stamped with the project id
(`instances.push({ ...instance, projectId })`). -/
def tagInstances (projectId : String) (groups : List GCPZoneGroup) : List GCPComputeInstance :=
  (zoneGroupInstances groups).map (fun inst => { inst with projectId := some projectId })

/-- `GCPAPI.getComputeInstances` (`src/api/cloudflare.ts` lines 410-444):
a sequential sweep over the project ids; each project's aggregated-list
call is wrapped in `try`/`catch`, and a failure is (at most debug-logged
and) skipped, contributing nothing. -/
def getComputeInstances (fetch : String → Except String (List GCPZoneGroup))
    (projectIds : List String) : List GCPComputeInstance :=
  projectIds.bind (fun projectId =>
    match fetch projectId with
    | Except.ok groups => tagInstances projectId groups
    | Except.error _ => [])

/-- Matching entries one compute instance contributes in the compute
section of `GCPAPI.findResourcesByIP` (lines 553-582): one resource per
interface whose `networkIP` equals the query plus one per access config
whose `natIP` equals the query. -/
def instanceMatchEntries (ipAddress : String) (inst : GCPComputeInstance) : List GCPResource :=
  match inst.networkInterfaces with
  | none => []
  | some interfaces =>
    interfaces.bind (fun ni =>
      (if ni.networkIP == ipAddress then
        [{ rtype := "compute_instance", name := inst.name, ip_address := ni.networkIP,
           url := none }]
       else [])
      ++ (match ni.accessConfigs with
          | none => []
          | some configs =>
            configs.bind (fun ac =>
              if ac.natIP == ipAddress then
                [{ rtype := "compute_instance", name := inst.name, ip_address := ac.natIP,
                   url := none }]
              else [])))

/-- The compute-instance section of `GCPAPI.findResourcesByIP` over a
fetched instance list. -/
def gcpComputeMatches (ipAddress : String) (instances : List GCPComputeInstance) :
    List GCPResource :=
  instances.bind (instanceMatchEntries ipAddress)

/-- A Coolify server (`CoolifyServer`); `sid` is the numeric `id`. -/
structure CoolifyServer where
  sid : Nat
  uuid : String
  name : String
  ip : String
deriving DecidableEq, Repr

/-- The optional `destination` of a Coolify application or database,
holding an optional server. -/
structure CoolifyDestination where
  server : Option CoolifyServer
deriving DecidableEq, Repr

/-- A Coolify application as returned in an environment's resource tree. -/
structure CoolifyApp where
  name : String
  fqdn : Option String
  status : String
  destination : Option CoolifyDestination
deriving DecidableEq, Repr

/-- A Coolify service as returned in an environment's resource tree (its
server sits directly on the object). -/
structure CoolifySvc where
  name : String
  fqdn : Option String
  server : Option CoolifyServer
deriving DecidableEq, Repr

/-- A Coolify database as returned in an environment's resource tree. -/
structure CoolifyDb where
  name : String
  status : String
  destination : Option CoolifyDestination
deriving DecidableEq, Repr

/-- The resource tree of one Coolify environment; `none` models an
absent/non-array field (the `&& Array.isArray(...)` guards). -/
structure CoolifyEnvResources where
  applications : Option (List CoolifyApp)
  services : Option (List CoolifySvc)
  databases : Option (List CoolifyDb)
deriving DecidableEq, Repr

/-- A Coolify environment with its (already fetched) resource tree. -/
structure CoolifyEnvironment where
  name : String
  resources : CoolifyEnvResources
deriving DecidableEq, Repr

/-- A Coolify project with its (already fetched) environments. -/
structure CoolifyProject where
  uuid : String
  name : String
  environments : List CoolifyEnvironment
deriving DecidableEq, Repr

/-- The server-identity match of `CoolifyAPI.findResourcesByIP`:
`s.uuid === dest?.uuid || s.id === dest?.id` (comparisons against an
absent server are false). -/
def serverIdentityMatch (s : CoolifyServer) (dest : Option CoolifyServer) : Bool :=
  match dest with
  | some ds => s.uuid == ds.uuid || s.sid == ds.sid
  | none => false

/-- The embedded destination-server IP check:
`dest?.ip === ipAddress` (false when the server is absent). -/
def destServerIPMatches (ipAddress : String) (dest : Option CoolifyServer) : Bool :=
  match dest with
  | some ds => ds.ip == ipAddress
  | none => false

/-- `CoolifyAPI.findResourcesByIP` (Coolify adapter, lines 149-253) over
already-fetched data: filter the servers to those whose IP equals the
query and return `[]` immediately when none matches; otherwise walk every
project's environments and keep each application, service and database
whose destination server matches a matching server by identity or whose
embedded destination-server IP equals the query. -/
def coolifyFindResourcesByIP (ipAddress : String) (servers : List CoolifyServer)
    (projects : List CoolifyProject) : List CoolifyResource :=
  let matchingServers := servers.filter (fun s => s.ip == ipAddress)
  if matchingServers.isEmpty then []
  else
    projects.bind (fun project =>
      project.environments.bind (fun environment =>
        (match environment.resources.applications with
         | none => []
         | some apps =>
           apps.filterMap (fun app =>
             let dest := app.destination.bind (fun d => d.server)
             let serverMatch := matchingServers.find? (fun s => serverIdentityMatch s dest)
             if serverMatch.isSome || destServerIPMatches ipAddress dest then
               some { rtype := "application", name := app.name, fqdn := app.fqdn,
                      status := some app.status, server_ip := some ipAddress,
                      server_name := jsOrStr (serverMatch.map (fun s => s.name))
                        (dest.map (fun ds => ds.name)),
                      environment := some environment.name }
             else none))
        ++ (match environment.resources.services with
            | none => []
            | some services =>
              services.filterMap (fun service =>
                let dest := service.server
                let serverMatch := matchingServers.find? (fun s => serverIdentityMatch s dest)
                if serverMatch.isSome || destServerIPMatches ipAddress dest then
                  some { rtype := "service", name := service.name, fqdn := service.fqdn,
                         status := none, server_ip := some ipAddress,
                         server_name := jsOrStr (serverMatch.map (fun s => s.name))
                           (dest.map (fun ds => ds.name)),
                         environment := some environment.name }
                else none))
        ++ (match environment.resources.databases with
            | none => []
            | some dbs =>
              dbs.filterMap (fun db =>
                let dest := db.destination.bind (fun d => d.server)
                let serverMatch := matchingServers.find? (fun s => serverIdentityMatch s dest)
                if serverMatch.isSome || destServerIPMatches ipAddress dest then
                  some { rtype := "database", name := db.name, fqdn := none,
                         status := some db.status, server_ip := some ipAddress,
                         server_name := jsOrStr (serverMatch.map (fun s => s.name))
                           (dest.map (fun ds => ds.name)),
                         environment := some environment.name }
                else none))))

/-- Join a list of provider names with the `+` separator. -/
def joinPlus : List String → String
  | [] => ""
  | [s] => s
  | s :: rest => s ++ "+" ++ joinPlus rest

/-- Modelled from the spec: the generic provider-combination label of
§4.4 step 5 — render the label from the provider set itself, as the
sorted, `+`-joined member names, with the full set rendered as `"all"`.
The four provider names are listed in lexicographic order, so filtering
them by membership yields the sorted member list. -/
def specLabelOfSet (cf coo d g : Bool) : String :=
  if cf && coo && d && g then "all"
  else joinPlus (([("cloudflare", cf), ("coolify", coo), ("digitalocean", d),
    ("gcp", g)].filterMap (fun p => if p.2 then some p.1 else none)))

/-- C4: when the DNS provider (Cloudflare) reports a record named
`"a.example.com"` and the deployment platform (Coolify) reports a
resource whose FQDN is `"a.example.com"`, both matching the queried IP
`203.0.113.9`, the merged inventory has exactly one entry for
`"a.example.com"`, whose provider set contains both providers
(`inCoolify = true`) and whose label is the combined two-provider label
`"cloudflare+coolify"`. -/
theorem c4_dns_and_deployment_merge :
    combineDomainData "203.0.113.9"
      [⟨"a.example.com", "A", "203.0.113.9", "example.com"⟩]
      [⟨"application", "web", some "a.example.com", some "running", some "203.0.113.9", none, some "production"⟩]
      [] []
      = [⟨"203.0.113.9", "a.example.com", "cloudflare+coolify", true, false, false, "domain"⟩] := by
  decide

theorem contains_iff_mem {l : List String} {a : String} : l.contains a = true ↔ a ∈ l :=
  List.elem_iff

theorem lexLe_refl : ∀ x, lexLe x x = true := by
  intro x
  induction x with
  | nil => rfl
  | cons a as ih => simp [lexLe, ih]

theorem lexLe_total : ∀ x y, lexLe x y = true ∨ lexLe y x = true := by
  intro x
  induction x with
  | nil => intro y; left; rfl
  | cons a as ih =>
    intro y
    cases y with
    | nil => right; rfl
    | cons b bs =>
      rcases Nat.lt_trichotomy a.toNat b.toNat with h | h | h
      · left; simp [lexLe, h]
      · rcases ih bs with h2 | h2
        · left; simp [lexLe, h, Nat.lt_irrefl, h2]
        · right; simp [lexLe, h, Nat.lt_irrefl, h2]
      · right; simp [lexLe, h]

theorem lexLe_trans : ∀ x y z, lexLe x y = true → lexLe y z = true → lexLe x z = true := by
  intro x
  induction x with
  | nil => intro y z _ _; rfl
  | cons a as ih =>
    intro y z h1 h2
    cases y with
    | nil => simp [lexLe] at h1
    | cons b bs =>
      cases z with
      | nil => simp [lexLe] at h2
      | cons c cs =>
        simp only [lexLe] at h1 h2 ⊢
        by_cases hab : a.toNat < b.toNat
        · by_cases hbc : b.toNat < c.toNat
          · have : a.toNat < c.toNat := Nat.lt_trans hab hbc
            simp [this]
          · simp only [hbc, if_false] at h2
            by_cases hcb : c.toNat < b.toNat
            · simp [hcb] at h2
            · have hbceq : b.toNat = c.toNat := by omega
              have : a.toNat < c.toNat := hbceq ▸ hab
              simp [this]
        · simp only [hab, if_false] at h1
          by_cases hba : b.toNat < a.toNat
          · simp [hba] at h1
          · have habeq : a.toNat = b.toNat := by omega
            by_cases hbc : b.toNat < c.toNat
            · have : a.toNat < c.toNat := habeq ▸ hbc
              simp [this]
            · simp only [hbc, if_false] at h2
              by_cases hcb : c.toNat < b.toNat
              · simp [hcb] at h2
              · have hbceq : b.toNat = c.toNat := by omega
                have hac : a.toNat = c.toNat := habeq.trans hbceq
                have h1' : lexLe as bs = true := by
                  simpa [habeq, Nat.lt_irrefl] using h1
                have h2' : lexLe bs cs = true := by
                  simpa [hbceq, Nat.lt_irrefl] using h2
                simp [hac, Nat.lt_irrefl, ih bs cs h1' h2']

theorem char_toNat_inj {a b : Char} (h : a.toNat = b.toNat) : a = b := by
  have hv : a.val = b.val := by
    apply UInt32.toNat.inj
    exact h
  exact Char.eq_of_val_eq hv

theorem lexLe_antisymm : ∀ x y, lexLe x y = true → lexLe y x = true → x = y := by
  intro x
  induction x with
  | nil =>
    intro y _ h2
    cases y with
    | nil => rfl
    | cons b bs => simp [lexLe] at h2
  | cons a as ih =>
    intro y h1 h2
    cases y with
    | nil => simp [lexLe] at h1
    | cons b bs =>
      by_cases hab : a.toNat < b.toNat
      · simp [lexLe, hab, Nat.lt_asymm hab, Nat.lt_irrefl] at h2
      · by_cases hba : b.toNat < a.toNat
        · simp [lexLe, hba, Nat.lt_asymm hba, Nat.lt_irrefl] at h1
        · have habeq : a.toNat = b.toNat := by omega
          have h1' : lexLe as bs = true := by simpa [lexLe, hab, hba] using h1
          have h2' : lexLe bs as = true := by simpa [lexLe, hab, hba] using h2
          rw [char_toNat_inj habeq, ih bs h1' h2']

theorem string_eq_of_data_eq {s t : String} (h : s.data = t.data) : s = t :=
  String.ext h

theorem mem_dedupFirstAux : ∀ (l seen : List String) (x : String),
    x ∈ dedupFirstAux seen l ↔ (x ∈ l ∧ x ∉ seen) := by
  intro l
  induction l with
  | nil => intro seen x; simp [dedupFirstAux]
  | cons a t ih =>
    intro seen x
    by_cases ha : seen.contains a
    · have hamem : a ∈ seen := contains_iff_mem.mp ha
      simp only [dedupFirstAux, ha, if_true, ih, List.mem_cons]
      constructor
      · rintro ⟨hx, hns⟩; exact ⟨Or.inr hx, hns⟩
      · rintro ⟨hx | hx, hns⟩
        · exact absurd (hx ▸ hamem) hns
        · exact ⟨hx, hns⟩
    · have hamem : a ∉ seen := fun hm => ha (contains_iff_mem.mpr hm)
      simp only [dedupFirstAux, ha, Bool.false_eq_true, if_false, List.mem_cons, ih]
      by_cases hxa : x = a
      · subst hxa; simp [hamem]
      · simp [hxa]

theorem nodup_dedupFirstAux : ∀ (l seen : List String), (dedupFirstAux seen l).Nodup := by
  intro l
  induction l with
  | nil => intro seen; simp [dedupFirstAux]
  | cons a t ih =>
    intro seen
    by_cases ha : seen.contains a
    · simp only [dedupFirstAux, ha, if_true]
      exact ih seen
    · simp only [dedupFirstAux, ha, Bool.false_eq_true, if_false]
      refine List.nodup_cons.mpr ⟨?_, ih (a :: seen)⟩
      intro hmem
      exact ((mem_dedupFirstAux t (a :: seen) a).mp hmem).2 (List.mem_cons_self a seen)

theorem mem_dedupFirst {l : List String} {x : String} : x ∈ dedupFirst l ↔ x ∈ l := by
  simp [dedupFirst, mem_dedupFirstAux]

theorem nodup_dedupFirst (l : List String) : (dedupFirst l).Nodup :=
  nodup_dedupFirstAux l []

theorem perm_of_nodup_of_mem_iff {l₁ l₂ : List String} (h₁ : l₁.Nodup) (h₂ : l₂.Nodup)
    (h : ∀ x, x ∈ l₁ ↔ x ∈ l₂) : List.Perm l₁ l₂ := by
  refine List.perm_iff_count.mpr (fun a => ?_)
  by_cases ha : a ∈ l₁
  · rw [List.count_eq_one_of_mem h₁ ha, List.count_eq_one_of_mem h₂ ((h a).mp ha)]
  · rw [List.count_eq_zero_of_not_mem ha,
      List.count_eq_zero_of_not_mem (fun hm => ha ((h a).mpr hm))]

theorem contains_eq_of_perm {l₁ l₂ : List String} (h : List.Perm l₁ l₂) (x : String) :
    l₁.contains x = l₂.contains x := by
  rw [Bool.eq_iff_iff, contains_iff_mem, contains_iff_mem]
  exact h.mem_iff

theorem sorted_combineDomainData (ip : String) (cf : List DNSRecord)
    (coo : List CoolifyResource) (d : List DOResource) (g : List GCPResource) :
    (combineDomainData ip cf coo d g).Sorted entryLe := by
  have htot : IsTotal CombinedDomainInfo entryLe :=
    ⟨fun a b => lexLe_total a.domain.data b.domain.data⟩
  have htrans : IsTrans CombinedDomainInfo entryLe :=
    ⟨fun a b c => lexLe_trans a.domain.data b.domain.data c.domain.data⟩
  exact List.sorted_insertionSort entryLe _

theorem sorted_nodup_keys_eq : ∀ (l₁ l₂ : List CombinedDomainInfo),
    List.Perm l₁ l₂ → l₁.Sorted entryLe → l₂.Sorted entryLe →
    (l₁.map (fun e => e.domain)).Nodup → l₁ = l₂ := by
  intro l₁
  induction l₁ with
  | nil =>
    intro l₂ hp _ _ _
    exact (hp.symm.eq_nil).symm
  | cons a t₁ ih =>
    intro l₂ hp hs₁ hs₂ hnd
    cases l₂ with
    | nil => exact absurd hp.eq_nil (by simp)
    | cons b t₂ =>
      have hnd' : (a.domain :: t₁.map (fun e => e.domain)).Nodup := by simpa using hnd
      have hab : a = b := by
        have ha₂ : a ∈ b :: t₂ := hp.mem_iff.mp (List.mem_cons_self a t₁)
        rcases List.mem_cons.mp ha₂ with h | h
        · exact h
        · have hb₁ : b ∈ a :: t₁ := hp.symm.mem_iff.mp (List.mem_cons_self b t₂)
          rcases List.mem_cons.mp hb₁ with h' | h'
          · exact h'.symm
          · have hr1 : entryLe a b := List.rel_of_sorted_cons hs₁ b h'
            have hr2 : entryLe b a := List.rel_of_sorted_cons hs₂ a h
            have hdom : a.domain = b.domain :=
              string_eq_of_data_eq (lexLe_antisymm _ _ hr1 hr2)
            have hmem : a.domain ∈ t₁.map (fun e => e.domain) :=
              hdom ▸ List.mem_map_of_mem (fun e => e.domain) h'
            exact absurd hmem (List.nodup_cons.mp hnd').1
      subst hab
      have ht : List.Perm t₁ t₂ := hp.cons_inv
      rw [ih t₂ ht hs₁.of_cons hs₂.of_cons (List.nodup_cons.mp hnd').2]

/-- C5: a record matches the queried IP only under character-for-character
string equality, with no normalization: the Cloudflare matcher and the
DigitalOcean domain-record matcher hold exactly when the record is of
address type and its recorded IP string equals the query, every record
either matcher returns carries exactly the queried IP string, and in
particular querying `"192.168.1.1"` matches neither a recorded
`"192.168.1.10"` nor a recorded `"192.168.1.01"`. -/
theorem c5_exact_string_ip_matching :
    (∀ ip r, cfRecordMatches ip r = true ↔ ((r.rtype = "A" ∨ r.rtype = "AAAA") ∧ r.content = ip))
    ∧ (∀ ip r, doRecordMatches ip r = true ↔ ((r.rtype = "A" ∨ r.rtype = "AAAA") ∧ r.data = ip))
    ∧ (∀ ip zones r, r ∈ cloudflareFindDomainsByIP ip zones → r.content = ip)
    ∧ (∀ ip domains r, r ∈ doDomainRecordResources ip domains → r.ip_address = ip)
    ∧ cfRecordMatches "192.168.1.1" ⟨"host.example.com", "A", "192.168.1.10", "z"⟩ = false
    ∧ cfRecordMatches "192.168.1.1" ⟨"host.example.com", "A", "192.168.1.01", "z"⟩ = false
    ∧ doRecordMatches "192.168.1.1" ⟨"A", "www", "192.168.1.10"⟩ = false
    ∧ doRecordMatches "192.168.1.1" ⟨"A", "www", "192.168.1.01"⟩ = false := by
  refine ⟨?_, ?_, ?_, ?_, by decide, by decide, by decide, by decide⟩
  · intro ip r
    simp [cfRecordMatches, Bool.and_eq_true, Bool.or_eq_true, beq_iff_eq, and_comm]
  · intro ip r
    simp [doRecordMatches, Bool.and_eq_true, Bool.or_eq_true, beq_iff_eq, and_comm]
  · intro ip zones r hr
    simp only [cloudflareFindDomainsByIP, List.mem_bind, List.mem_map, List.mem_filter] at hr
    obtain ⟨zone, _, rec, ⟨_, hmatch⟩, heq⟩ := hr
    have hc : rec.content = ip := by
      simp only [cfRecordMatches, Bool.and_eq_true, beq_iff_eq] at hmatch
      exact hmatch.2
    rw [← heq]
    exact hc
  · intro ip domains r hr
    simp only [doDomainRecordResources, List.mem_bind, List.mem_map, List.mem_filter] at hr
    obtain ⟨domain, _, rec, ⟨_, hmatch⟩, heq⟩ := hr
    have hc : rec.data = ip := by
      simp only [doRecordMatches, Bool.and_eq_true, beq_iff_eq] at hmatch
      exact hmatch.2
    rw [← heq]
    exact hc

/-- Witness for C5: the Cloudflare matcher accepts an A record whose
content is exactly the queried IP, and a concrete record returned by
`cloudflareFindDomainsByIP` carries exactly the queried IP. -/
theorem c5_exact_string_ip_matching_witness :
    (⟨"web.example.com", "A", "10.0.0.1", "example.com"⟩ : DNSRecord)
      ∈ cloudflareFindDomainsByIP "10.0.0.1"
        [("example.com", [⟨"web.example.com", "A", "10.0.0.1", ""⟩])]
    ∧ (⟨"web.example.com", "A", "10.0.0.1", "example.com"⟩ : DNSRecord).content = "10.0.0.1" := by
  refine ⟨by decide, ?_⟩
  exact c5_exact_string_ip_matching.2.2.1 "10.0.0.1"
    [("example.com", [⟨"web.example.com", "A", "10.0.0.1", ""⟩])]
    ⟨"web.example.com", "A", "10.0.0.1", "example.com"⟩ (by decide)

/-- C6: the `all ip` command exits non-zero exactly when the IP argument
is malformed or no provider at all is configured; otherwise it completes
with exit code zero, carrying each configured provider's results and
reporting each provider failure (thrown error or failed connection test)
as a warning rather than failing the command. -/
theorem c6_all_ip_exit_code :
    (∀ inp, exitCode (allIpAction inp) ≠ 0 ↔
       (isValidIP inp.ip = false
         ∨ (inp.cloudflare = none ∧ inp.coolify = none
             ∧ inp.digitalocean = none ∧ inp.gcp = none)))
    ∧ (∀ inp, isValidIP inp.ip = true →
        ¬(inp.cloudflare = none ∧ inp.coolify = none
            ∧ inp.digitalocean = none ∧ inp.gcp = none) →
        allIpAction inp = AllIpOutcome.completed
          (providerWarnings "Cloudflare" inp.cloudflare ++ providerWarnings "Coolify" inp.coolify
            ++ providerWarnings "DigitalOcean" inp.digitalocean
            ++ providerWarnings "GCP" inp.gcp)
          (providerResults inp.cloudflare) (providerResults inp.coolify)
          (providerResults inp.digitalocean) (providerResults inp.gcp)
        ∧ exitCode (allIpAction inp) = 0)
    ∧ (∀ inp m w cf coo dd g, allIpAction inp = AllIpOutcome.completed w cf coo dd g →
        inp.coolify = some (ProviderRun.threw m) → ("Coolify: " ++ m) ∈ w)
    ∧ (∀ inp w cf coo dd g, allIpAction inp = AllIpOutcome.completed w cf coo dd g →
        inp.cloudflare = some ProviderRun.connectFailed →
        "Failed to connect to Cloudflare API" ∈ w) := by
  have hshape : ∀ inp w cf coo dd g, allIpAction inp = AllIpOutcome.completed w cf coo dd g →
      w = providerWarnings "Cloudflare" inp.cloudflare ++ providerWarnings "Coolify" inp.coolify
        ++ providerWarnings "DigitalOcean" inp.digitalocean ++ providerWarnings "GCP" inp.gcp := by
    intro inp w cf coo dd g h
    by_cases hv : isValidIP inp.ip
    · by_cases hb : (inp.cloudflare.isNone && inp.coolify.isNone
        && inp.digitalocean.isNone && inp.gcp.isNone) = true
      · simp [allIpAction, hv, hb] at h
      · simp only [allIpAction, hv, Bool.not_true, Bool.false_eq_true, if_false, hb,
          AllIpOutcome.completed.injEq] at h
        exact h.1.symm
    · have hv' : isValidIP inp.ip = false := by
        cases hiv : isValidIP inp.ip
        · rfl
        · exact absurd hiv hv
      simp [allIpAction, hv'] at h
  refine ⟨?_, ?_, ?_, ?_⟩
  · intro inp
    by_cases hv : isValidIP inp.ip
    · by_cases hb : (inp.cloudflare.isNone && inp.coolify.isNone
        && inp.digitalocean.isNone && inp.gcp.isNone) = true
      · have hnone : inp.cloudflare = none ∧ inp.coolify = none
            ∧ inp.digitalocean = none ∧ inp.gcp = none := by
          simp only [Bool.and_eq_true, Option.isNone_iff_eq_none] at hb
          exact ⟨hb.1.1.1, hb.1.1.2, hb.1.2, hb.2⟩
        simp [allIpAction, exitCode, hv, hb, hnone]
      · have hsome : ¬(inp.cloudflare = none ∧ inp.coolify = none
            ∧ inp.digitalocean = none ∧ inp.gcp = none) := by
          intro hcon
          exact hb (by simp [Bool.and_eq_true, Option.isNone_iff_eq_none, hcon.1, hcon.2.1,
            hcon.2.2.1, hcon.2.2.2])
        simp [allIpAction, exitCode, hv, hb, hsome]
    · have hv' : isValidIP inp.ip = false := by
        cases hiv : isValidIP inp.ip
        · rfl
        · exact absurd hiv hv
      simp [allIpAction, exitCode, hv']
  · intro inp hv hsome
    have hb : (inp.cloudflare.isNone && inp.coolify.isNone
        && inp.digitalocean.isNone && inp.gcp.isNone) = false := by
      cases hbb : (inp.cloudflare.isNone && inp.coolify.isNone
        && inp.digitalocean.isNone && inp.gcp.isNone)
      · rfl
      · exfalso
        apply hsome
        simp only [Bool.and_eq_true, Option.isNone_iff_eq_none] at hbb
        exact ⟨hbb.1.1.1, hbb.1.1.2, hbb.1.2, hbb.2⟩
    constructor
    · simp [allIpAction, hv, hb]
    · simp [allIpAction, exitCode, hv, hb]
  · intro inp m w cf coo dd g h hcoo
    have hw := hshape inp w cf coo dd g h
    subst hw
    simp [providerWarnings, hcoo]
  · intro inp w cf coo dd g h hcf
    have hw := hshape inp w cf coo dd g h
    subst hw
    simp [providerWarnings, hcf]

/-- Witness for C6: with a valid IP, Cloudflare throwing, DigitalOcean
succeeding and the others unconfigured, the command completes with exit
code zero and the thrown message appears in the warnings. -/
theorem c6_all_ip_exit_code_witness :
    isValidIP "192.0.2.7" = true
    ∧ ¬((some (ProviderRun.threw "boom") : Option (ProviderRun DNSRecord)) = none
        ∧ (none : Option (ProviderRun CoolifyResource)) = none
        ∧ (some (ProviderRun.ok [⟨"droplet", "web-1", "192.0.2.7", none⟩])
            : Option (ProviderRun DOResource)) = none
        ∧ (none : Option (ProviderRun GCPResource)) = none)
    ∧ exitCode (allIpAction
        ⟨"192.0.2.7", some (ProviderRun.threw "boom"), none,
          some (ProviderRun.ok [⟨"droplet", "web-1", "192.0.2.7", none⟩]), none⟩) = 0 := by
  refine ⟨by decide, by decide, ?_⟩
  exact (c6_all_ip_exit_code.2.1
    ⟨"192.0.2.7", some (ProviderRun.threw "boom"), none,
      some (ProviderRun.ok [⟨"droplet", "web-1", "192.0.2.7", none⟩]), none⟩
    (by decide) (by decide)).2

/-- C7: in the GCP compute sweep a per-project sub-call that throws is
caught and skipped and never aborts the sweep: a failing project
contributes nothing and leaves the rest of the sweep unchanged, every
successful project's instances all appear in the result, and with
projects `[P, Q]` where `P` throws and `Q` succeeds the swept instance
list and its IP matches are exactly those of `Q`. -/
theorem c7_gcp_project_failure_skipped :
    (∀ (fetch : String → Except String (List GCPZoneGroup)) p rest e,
       fetch p = Except.error e →
       getComputeInstances fetch (p :: rest) = getComputeInstances fetch rest)
    ∧ (∀ (fetch : String → Except String (List GCPZoneGroup)) projects q gs,
       q ∈ projects → fetch q = Except.ok gs →
       ∀ inst ∈ tagInstances q gs, inst ∈ getComputeInstances fetch projects)
    ∧ (∀ (fetch : String → Except String (List GCPZoneGroup)) p q e gs ip,
       fetch p = Except.error e → fetch q = Except.ok gs →
       getComputeInstances fetch [p, q] = tagInstances q gs
       ∧ gcpComputeMatches ip (getComputeInstances fetch [p, q])
           = gcpComputeMatches ip (tagInstances q gs)) := by
  refine ⟨?_, ?_, ?_⟩
  · intro fetch p rest e h
    simp [getComputeInstances, h]
  · intro fetch projects q gs hq h inst hinst
    refine List.mem_bind.mpr ⟨q, hq, ?_⟩
    simpa [h] using hinst
  · intro fetch p q e gs ip h1 h2
    have hmain : getComputeInstances fetch [p, q] = tagInstances q gs := by
      simp [getComputeInstances, h1, h2]
    exact ⟨hmain, by rw [hmain]⟩

/-- Witness for C7: with project `"p"` failing and project `"q"`
returning one instance whose NAT IP matches, the sweep over `["p", "q"]`
still matches exactly `"q"`'s instance. -/
theorem c7_gcp_project_failure_skipped_witness :
    (fun s => if s == "p" then Except.error "permission denied"
      else Except.ok [GCPZoneGroup.mk (some [⟨"vm-1", "zones/us-central1-a", "RUNNING", none,
        some [⟨"10.0.0.2", some [⟨"203.0.113.9"⟩]⟩]⟩])]) "p"
      = (Except.error "permission denied" : Except String (List GCPZoneGroup))
    ∧ gcpComputeMatches "203.0.113.9"
        (getComputeInstances
          (fun s => if s == "p" then Except.error "permission denied"
            else Except.ok [GCPZoneGroup.mk (some [⟨"vm-1", "zones/us-central1-a", "RUNNING", none,
              some [⟨"10.0.0.2", some [⟨"203.0.113.9"⟩]⟩]⟩])]) ["p", "q"])
      = gcpComputeMatches "203.0.113.9"
          (tagInstances "q" [GCPZoneGroup.mk (some [⟨"vm-1", "zones/us-central1-a", "RUNNING", none,
            some [⟨"10.0.0.2", some [⟨"203.0.113.9"⟩]⟩]⟩])]) := by
  refine ⟨rfl, ?_⟩
  exact (c7_gcp_project_failure_skipped.2.2
    (fun s => if s == "p" then Except.error "permission denied"
      else Except.ok [GCPZoneGroup.mk (some [⟨"vm-1", "zones/us-central1-a", "RUNNING", none,
        some [⟨"10.0.0.2", some [⟨"203.0.113.9"⟩]⟩]⟩])])
    "p" "q" "permission denied"
    [GCPZoneGroup.mk (some [⟨"vm-1", "zones/us-central1-a", "RUNNING", none,
      some [⟨"10.0.0.2", some [⟨"203.0.113.9"⟩]⟩]⟩])]
    "203.0.113.9" rfl rfl).2

/-- C8: the GCP project discoverer treats an empty discovered-project set
as a state distinct from a discovery-call failure: an authenticated call
returning zero projects yields `Except.ok []` (a soft result, not a
thrown error) and makes `testConnection` report `false` with the
`"No accessible projects found"` message, whereas a failed discovery call
is surfaced as the re-thrown error and makes `testConnection` report
`false` without that message; the two `testConnection` outcomes differ. -/
theorem c8_empty_projects_vs_failure :
    (∀ ids (call : Option String → Except String GCPProjectPage) fuel page,
       call none = Except.ok page → pageProjectIds page = [] → page.nextPageToken = none →
       discoverProjects true ids call fuel = Except.ok [])
    ∧ (∀ ids (call : Option String → Except String GCPProjectPage) fuel e,
       call none = Except.error e →
       discoverProjects true ids call fuel = Except.error e)
    ∧ (∀ e : String, (Except.ok [] : Except String (List String)) ≠ Except.error e)
    ∧ (∀ ids (call : Option String → Except String GCPProjectPage) fuel probe page,
       call none = Except.ok page → pageProjectIds page = [] → page.nextPageToken = none →
       gcpTestConnection true ids call fuel probe
         = ⟨false, ["No accessible projects found"]⟩)
    ∧ (∀ ids (call : Option String → Except String GCPProjectPage) fuel probe e,
       call none = Except.error e →
       gcpTestConnection true ids call fuel probe = ⟨false, []⟩)
    ∧ (⟨false, ["No accessible projects found"]⟩ : TestConnectionOutcome)
        ≠ ⟨false, []⟩ := by
  have hdisc : ∀ ids (call : Option String → Except String GCPProjectPage) fuel page,
      call none = Except.ok page → pageProjectIds page = [] → page.nextPageToken = none →
      discoverProjects true ids call fuel = Except.ok [] := by
    intro ids call fuel page hcall hids htok
    cases hproj : page.projects with
    | none => simp [discoverProjects, hcall, hproj]
    | some entries =>
      simp only [discoverProjects, Bool.not_true, Bool.false_eq_true, if_false, hcall, hproj, htok]
      rw [hids]
  have herr : ∀ ids (call : Option String → Except String GCPProjectPage) fuel e,
      call none = Except.error e →
      discoverProjects true ids call fuel = Except.error e := by
    intro ids call fuel e hcall
    simp [discoverProjects, hcall]
  refine ⟨hdisc, herr, fun e h => Except.noConfusion h, ?_, ?_, by intro h; simp at h⟩
  · intro ids call fuel probe page hcall hids htok
    simp [gcpTestConnection, hdisc ids call fuel page hcall hids htok]
  · intro ids call fuel probe e hcall
    simp [gcpTestConnection, herr ids call fuel e hcall]

/-- Witness for C8: a concrete discovery call returning an empty active
project page yields the soft `Except.ok []`, while a concrete failing
call yields the re-thrown error. -/
theorem c8_empty_projects_vs_failure_witness :
    discoverProjects true []
      (fun _ => Except.ok ⟨some [], none⟩) 3 = Except.ok []
    ∧ discoverProjects true []
        (fun _ => Except.error "401 unauthorized") 3 = Except.error "401 unauthorized"
    ∧ gcpTestConnection true [] (fun _ => Except.ok ⟨some [], none⟩) 3
        (fun _ => Except.ok ()) = ⟨false, ["No accessible projects found"]⟩ := by
  refine ⟨?_, ?_, ?_⟩
  · exact c8_empty_projects_vs_failure.1 [] (fun _ => Except.ok ⟨some [], none⟩) 3
      ⟨some [], none⟩ rfl rfl rfl
  · exact c8_empty_projects_vs_failure.2.1 [] (fun _ => Except.error "401 unauthorized") 3
      "401 unauthorized" rfl
  · exact c8_empty_projects_vs_failure.2.2.2.1 [] (fun _ => Except.ok ⟨some [], none⟩) 3
      (fun _ => Except.ok ()) ⟨some [], none⟩ rfl rfl rfl

/-- Counterexample to C9 as stated: the queried IP `203.0.113.5` matches
no server in the server list, so `findResourcesByIP` returns early with
the empty list, even though a project's application has an embedded
destination-server IP exactly equal to the query (first conjunct); the
claimed embedded-IP match therefore does not fire in that case. -/
theorem c9_counterexample :
    destServerIPMatches "203.0.113.5"
      ((some (CoolifyDestination.mk (some ⟨2, "other-uuid", "node-b", "203.0.113.5"⟩))).bind
        (fun d => d.server)) = true
    ∧ coolifyFindResourcesByIP "203.0.113.5"
        [⟨1, "srv-uuid", "node-a", "198.51.100.7"⟩]
        [⟨"proj-uuid", "main",
          [⟨"production",
            ⟨some [⟨"web", some "web.example.com", "running",
              some ⟨some ⟨2, "other-uuid", "node-b", "203.0.113.5"⟩⟩⟩], none, none⟩⟩]⟩]
      = [] := by
  exact ⟨by decide, by decide⟩

/-- C9 (amended): when no listed server's IP equals the query, Coolify
discovery returns the empty list immediately, and the per-resource
matching (destination-server identity against an IP-matching server, or
the resource's embedded destination-server IP equal to the query) returns
a resource only when at least one listed server's IP equals the query; in
that case every application, service and database matching either way is
returned. -/
theorem c9_amended :
    (∀ ip servers projects, servers.filter (fun s => s.ip == ip) = [] →
       coolifyFindResourcesByIP ip servers projects = [])
    ∧ (∀ ip (servers : List CoolifyServer) (projects : List CoolifyProject) proj env apps app,
       proj ∈ projects → env ∈ proj.environments →
       env.resources.applications = some apps → app ∈ apps →
       servers.filter (fun s => s.ip == ip) ≠ [] →
       ((∃ s ∈ servers.filter (fun s => s.ip == ip),
           serverIdentityMatch s (app.destination.bind (fun d => d.server)) = true)
         ∨ destServerIPMatches ip (app.destination.bind (fun d => d.server)) = true) →
       ∃ e ∈ coolifyFindResourcesByIP ip servers projects,
         e.rtype = "application" ∧ e.name = app.name ∧ e.fqdn = app.fqdn)
    ∧ (∀ ip (servers : List CoolifyServer) (projects : List CoolifyProject) proj env svcs svc,
       proj ∈ projects → env ∈ proj.environments →
       env.resources.services = some svcs → svc ∈ svcs →
       servers.filter (fun s => s.ip == ip) ≠ [] →
       ((∃ s ∈ servers.filter (fun s => s.ip == ip),
           serverIdentityMatch s svc.server = true)
         ∨ destServerIPMatches ip svc.server = true) →
       ∃ e ∈ coolifyFindResourcesByIP ip servers projects,
         e.rtype = "service" ∧ e.name = svc.name ∧ e.fqdn = svc.fqdn)
    ∧ (∀ ip (servers : List CoolifyServer) (projects : List CoolifyProject) proj env dbs db,
       proj ∈ projects → env ∈ proj.environments →
       env.resources.databases = some dbs → db ∈ dbs →
       servers.filter (fun s => s.ip == ip) ≠ [] →
       ((∃ s ∈ servers.filter (fun s => s.ip == ip),
           serverIdentityMatch s (db.destination.bind (fun d => d.server)) = true)
         ∨ destServerIPMatches ip (db.destination.bind (fun d => d.server)) = true) →
       ∃ e ∈ coolifyFindResourcesByIP ip servers projects,
         e.rtype = "database" ∧ e.name = db.name ∧ e.status = some db.status) := by
  refine ⟨?_, ?_, ?_, ?_⟩
  · intro ip servers projects h
    simp [coolifyFindResourcesByIP, h]
  · intro ip servers projects proj env apps app hproj henv happs happ hne hmatch
    have hempty : (servers.filter (fun s => s.ip == ip)).isEmpty = false := by
      cases hl : servers.filter (fun s => s.ip == ip) with
      | nil => exact absurd hl hne
      | cons x xs => rfl
    have hcond : (((servers.filter (fun s => s.ip == ip)).find?
        (fun s => serverIdentityMatch s (app.destination.bind (fun d => d.server)))).isSome
        || destServerIPMatches ip (app.destination.bind (fun d => d.server))) = true := by
      rcases hmatch with ⟨s, hs, hsid⟩ | hdest
      · have hfind : ((servers.filter (fun s => s.ip == ip)).find?
            (fun s => serverIdentityMatch s (app.destination.bind (fun d => d.server)))).isSome
            = true := by
          rw [List.find?_isSome]
          exact ⟨s, hs, hsid⟩
        rw [hfind, Bool.true_or]
      · rw [hdest, Bool.or_true]
    refine ⟨CoolifyResource.mk "application" app.name app.fqdn (some app.status) (some ip)
      (jsOrStr
        (((servers.filter (fun s => s.ip == ip)).find?
          (fun s => serverIdentityMatch s (app.destination.bind (fun d => d.server)))).map
            (fun s => s.name))
        ((app.destination.bind (fun d => d.server)).map (fun ds => ds.name)))
      (some env.name), ?_, rfl, rfl, rfl⟩
    simp only [coolifyFindResourcesByIP, hempty, Bool.false_eq_true, if_false]
    refine List.mem_bind.mpr ⟨proj, hproj, ?_⟩
    refine List.mem_bind.mpr ⟨env, henv, ?_⟩
    refine List.mem_append.mpr (Or.inl ?_)
    refine List.mem_append.mpr (Or.inl ?_)
    rw [happs]
    refine List.mem_filterMap.mpr ⟨app, happ, ?_⟩
    simp only [hcond, if_true]
  · intro ip servers projects proj env svcs svc hproj henv hsvcs hsvc hne hmatch
    have hempty : (servers.filter (fun s => s.ip == ip)).isEmpty = false := by
      cases hl : servers.filter (fun s => s.ip == ip) with
      | nil => exact absurd hl hne
      | cons x xs => rfl
    have hcond : (((servers.filter (fun s => s.ip == ip)).find?
        (fun s => serverIdentityMatch s svc.server)).isSome
        || destServerIPMatches ip svc.server) = true := by
      rcases hmatch with ⟨s, hs, hsid⟩ | hdest
      · have hfind : ((servers.filter (fun s => s.ip == ip)).find?
            (fun s => serverIdentityMatch s svc.server)).isSome = true := by
          rw [List.find?_isSome]
          exact ⟨s, hs, hsid⟩
        rw [hfind, Bool.true_or]
      · rw [hdest, Bool.or_true]
    refine ⟨CoolifyResource.mk "service" svc.name svc.fqdn none (some ip)
      (jsOrStr
        (((servers.filter (fun s => s.ip == ip)).find?
          (fun s => serverIdentityMatch s svc.server)).map (fun s => s.name))
        (svc.server.map (fun ds => ds.name)))
      (some env.name), ?_, rfl, rfl, rfl⟩
    simp only [coolifyFindResourcesByIP, hempty, Bool.false_eq_true, if_false]
    refine List.mem_bind.mpr ⟨proj, hproj, ?_⟩
    refine List.mem_bind.mpr ⟨env, henv, ?_⟩
    refine List.mem_append.mpr (Or.inl ?_)
    refine List.mem_append.mpr (Or.inr ?_)
    rw [hsvcs]
    refine List.mem_filterMap.mpr ⟨svc, hsvc, ?_⟩
    simp only [hcond, if_true]
  · intro ip servers projects proj env dbs db hproj henv hdbs hdb hne hmatch
    have hempty : (servers.filter (fun s => s.ip == ip)).isEmpty = false := by
      cases hl : servers.filter (fun s => s.ip == ip) with
      | nil => exact absurd hl hne
      | cons x xs => rfl
    have hcond : (((servers.filter (fun s => s.ip == ip)).find?
        (fun s => serverIdentityMatch s (db.destination.bind (fun d => d.server)))).isSome
        || destServerIPMatches ip (db.destination.bind (fun d => d.server))) = true := by
      rcases hmatch with ⟨s, hs, hsid⟩ | hdest
      · have hfind : ((servers.filter (fun s => s.ip == ip)).find?
            (fun s => serverIdentityMatch s (db.destination.bind (fun d => d.server)))).isSome
            = true := by
          rw [List.find?_isSome]
          exact ⟨s, hs, hsid⟩
        rw [hfind, Bool.true_or]
      · rw [hdest, Bool.or_true]
    refine ⟨CoolifyResource.mk "database" db.name none (some db.status) (some ip)
      (jsOrStr
        (((servers.filter (fun s => s.ip == ip)).find?
          (fun s => serverIdentityMatch s (db.destination.bind (fun d => d.server)))).map
            (fun s => s.name))
        ((db.destination.bind (fun d => d.server)).map (fun ds => ds.name)))
      (some env.name), ?_, rfl, rfl, rfl⟩
    simp only [coolifyFindResourcesByIP, hempty, Bool.false_eq_true, if_false]
    refine List.mem_bind.mpr ⟨proj, hproj, ?_⟩
    refine List.mem_bind.mpr ⟨env, henv, ?_⟩
    refine List.mem_append.mpr (Or.inr ?_)
    rw [hdbs]
    refine List.mem_filterMap.mpr ⟨db, hdb, ?_⟩
    simp only [hcond, if_true]

/-- Witness for C9 (amended): with one server matching the queried IP and
an application, a service and a database all bound to it, discovery
returns all three. -/
theorem c9_amended_witness :
    (∃ e ∈ coolifyFindResourcesByIP "203.0.113.5"
        [⟨1, "u1", "node-a", "203.0.113.5"⟩]
        [⟨"proj-uuid", "main",
          [⟨"production",
            ⟨some [⟨"web", some "web.example.com", "running",
              some ⟨some ⟨1, "u1", "node-a", "203.0.113.5"⟩⟩⟩],
             some [⟨"redis", none, some ⟨1, "u1", "node-a", "203.0.113.5"⟩⟩],
             some [⟨"pgsql", "running",
               some ⟨some ⟨1, "u1", "node-a", "203.0.113.5"⟩⟩⟩]⟩⟩]⟩],
      e.rtype = "application" ∧ e.name = "web" ∧ e.fqdn = some "web.example.com")
    ∧ (∃ e ∈ coolifyFindResourcesByIP "203.0.113.5"
        [⟨1, "u1", "node-a", "203.0.113.5"⟩]
        [⟨"proj-uuid", "main",
          [⟨"production",
            ⟨some [⟨"web", some "web.example.com", "running",
              some ⟨some ⟨1, "u1", "node-a", "203.0.113.5"⟩⟩⟩],
             some [⟨"redis", none, some ⟨1, "u1", "node-a", "203.0.113.5"⟩⟩],
             some [⟨"pgsql", "running",
               some ⟨some ⟨1, "u1", "node-a", "203.0.113.5"⟩⟩⟩]⟩⟩]⟩],
      e.rtype = "service" ∧ e.name = "redis" ∧ e.fqdn = none)
    ∧ (∃ e ∈ coolifyFindResourcesByIP "203.0.113.5"
        [⟨1, "u1", "node-a", "203.0.113.5"⟩]
        [⟨"proj-uuid", "main",
          [⟨"production",
            ⟨some [⟨"web", some "web.example.com", "running",
              some ⟨some ⟨1, "u1", "node-a", "203.0.113.5"⟩⟩⟩],
             some [⟨"redis", none, some ⟨1, "u1", "node-a", "203.0.113.5"⟩⟩],
             some [⟨"pgsql", "running",
               some ⟨some ⟨1, "u1", "node-a", "203.0.113.5"⟩⟩⟩]⟩⟩]⟩],
      e.rtype = "database" ∧ e.name = "pgsql" ∧ e.status = some "running") := by
  refine ⟨?_, ?_, ?_⟩
  · exact c9_amended.2.1 "203.0.113.5"
      [⟨1, "u1", "node-a", "203.0.113.5"⟩]
      [⟨"proj-uuid", "main",
        [⟨"production",
          ⟨some [⟨"web", some "web.example.com", "running",
            some ⟨some ⟨1, "u1", "node-a", "203.0.113.5"⟩⟩⟩],
           some [⟨"redis", none, some ⟨1, "u1", "node-a", "203.0.113.5"⟩⟩],
           some [⟨"pgsql", "running",
             some ⟨some ⟨1, "u1", "node-a", "203.0.113.5"⟩⟩⟩]⟩⟩]⟩]
      ⟨"proj-uuid", "main",
        [⟨"production",
          ⟨some [⟨"web", some "web.example.com", "running",
            some ⟨some ⟨1, "u1", "node-a", "203.0.113.5"⟩⟩⟩],
           some [⟨"redis", none, some ⟨1, "u1", "node-a", "203.0.113.5"⟩⟩],
           some [⟨"pgsql", "running",
             some ⟨some ⟨1, "u1", "node-a", "203.0.113.5"⟩⟩⟩]⟩⟩]⟩
      ⟨"production",
        ⟨some [⟨"web", some "web.example.com", "running",
          some ⟨some ⟨1, "u1", "node-a", "203.0.113.5"⟩⟩⟩],
         some [⟨"redis", none, some ⟨1, "u1", "node-a", "203.0.113.5"⟩⟩],
         some [⟨"pgsql", "running",
           some ⟨some ⟨1, "u1", "node-a", "203.0.113.5"⟩⟩⟩]⟩⟩
      [⟨"web", some "web.example.com", "running",
        some ⟨some ⟨1, "u1", "node-a", "203.0.113.5"⟩⟩⟩]
      ⟨"web", some "web.example.com", "running",
        some ⟨some ⟨1, "u1", "node-a", "203.0.113.5"⟩⟩⟩
      (by decide) (by decide) rfl (by decide) (by decide)
      (Or.inr (by decide))
  · exact c9_amended.2.2.1 "203.0.113.5"
      [⟨1, "u1", "node-a", "203.0.113.5"⟩]
      [⟨"proj-uuid", "main",
        [⟨"production",
          ⟨some [⟨"web", some "web.example.com", "running",
            some ⟨some ⟨1, "u1", "node-a", "203.0.113.5"⟩⟩⟩],
           some [⟨"redis", none, some ⟨1, "u1", "node-a", "203.0.113.5"⟩⟩],
           some [⟨"pgsql", "running",
             some ⟨some ⟨1, "u1", "node-a", "203.0.113.5"⟩⟩⟩]⟩⟩]⟩]
      ⟨"proj-uuid", "main",
        [⟨"production",
          ⟨some [⟨"web", some "web.example.com", "running",
            some ⟨some ⟨1, "u1", "node-a", "203.0.113.5"⟩⟩⟩],
           some [⟨"redis", none, some ⟨1, "u1", "node-a", "203.0.113.5"⟩⟩],
           some [⟨"pgsql", "running",
             some ⟨some ⟨1, "u1", "node-a", "203.0.113.5"⟩⟩⟩]⟩⟩]⟩
      ⟨"production",
        ⟨some [⟨"web", some "web.example.com", "running",
          some ⟨some ⟨1, "u1", "node-a", "203.0.113.5"⟩⟩⟩],
         some [⟨"redis", none, some ⟨1, "u1", "node-a", "203.0.113.5"⟩⟩],
         some [⟨"pgsql", "running",
           some ⟨some ⟨1, "u1", "node-a", "203.0.113.5"⟩⟩⟩]⟩⟩
      [⟨"redis", none, some ⟨1, "u1", "node-a", "203.0.113.5"⟩⟩]
      ⟨"redis", none, some ⟨1, "u1", "node-a", "203.0.113.5"⟩⟩
      (by decide) (by decide) rfl (by decide) (by decide)
      (Or.inr (by decide))
  · exact c9_amended.2.2.2 "203.0.113.5"
      [⟨1, "u1", "node-a", "203.0.113.5"⟩]
      [⟨"proj-uuid", "main",
        [⟨"production",
          ⟨some [⟨"web", some "web.example.com", "running",
            some ⟨some ⟨1, "u1", "node-a", "203.0.113.5"⟩⟩⟩],
           some [⟨"redis", none, some ⟨1, "u1", "node-a", "203.0.113.5"⟩⟩],
           some [⟨"pgsql", "running",
             some ⟨some ⟨1, "u1", "node-a", "203.0.113.5"⟩⟩⟩]⟩⟩]⟩]
      ⟨"proj-uuid", "main",
        [⟨"production",
          ⟨some [⟨"web", some "web.example.com", "running",
            some ⟨some ⟨1, "u1", "node-a", "203.0.113.5"⟩⟩⟩],
           some [⟨"redis", none, some ⟨1, "u1", "node-a", "203.0.113.5"⟩⟩],
           some [⟨"pgsql", "running",
             some ⟨some ⟨1, "u1", "node-a", "203.0.113.5"⟩⟩⟩]⟩⟩]⟩
      ⟨"production",
        ⟨some [⟨"web", some "web.example.com", "running",
          some ⟨some ⟨1, "u1", "node-a", "203.0.113.5"⟩⟩⟩],
         some [⟨"redis", none, some ⟨1, "u1", "node-a", "203.0.113.5"⟩⟩],
         some [⟨"pgsql", "running",
           some ⟨some ⟨1, "u1", "node-a", "203.0.113.5"⟩⟩⟩]⟩⟩
      [⟨"pgsql", "running", some ⟨some ⟨1, "u1", "node-a", "203.0.113.5"⟩⟩⟩]
      ⟨"pgsql", "running", some ⟨some ⟨1, "u1", "node-a", "203.0.113.5"⟩⟩⟩
      (by decide) (by decide) rfl (by decide) (by decide)
      (Or.inr (by decide))

theorem octet_value_le : ∀ cs, isOctetToken cs = true → digitsValue cs ≤ 255 := by
  intro cs h
  match cs with
  | [] => simp [isOctetToken] at h
  | [c] =>
    simp only [isOctetToken, isDigitChar, Bool.and_eq_true, decide_eq_true_eq] at h
    simp only [digitsValue, List.foldl]
    omega
  | [c, d] =>
    simp only [isOctetToken, isDigitChar, Bool.and_eq_true, decide_eq_true_eq] at h
    simp only [digitsValue, List.foldl]
    omega
  | [c, d, e] =>
    simp only [isOctetToken, isDigitChar, Bool.and_eq_true, Bool.or_eq_true,
      decide_eq_true_eq] at h
    simp only [digitsValue, List.foldl]
    omega
  | _ :: _ :: _ :: _ :: _ => simp [isOctetToken] at h

theorem octet_chars_digits : ∀ cs, isOctetToken cs = true →
    ∀ c ∈ cs, 48 ≤ c.toNat ∧ c.toNat ≤ 57 := by
  intro cs h c hc
  match cs, hc with
  | [a], hc =>
    simp only [isOctetToken, isDigitChar, Bool.and_eq_true, decide_eq_true_eq] at h
    rcases List.mem_singleton.mp hc with rfl
    omega
  | [a, b], hc =>
    simp only [isOctetToken, isDigitChar, Bool.and_eq_true, decide_eq_true_eq] at h
    rcases List.mem_cons.mp hc with rfl | hc2
    · omega
    · rcases List.mem_singleton.mp hc2 with rfl
      omega
  | [a, b, e], hc =>
    simp only [isOctetToken, isDigitChar, Bool.and_eq_true, Bool.or_eq_true,
      decide_eq_true_eq] at h
    rcases List.mem_cons.mp hc with rfl | hc2
    · omega
    · rcases List.mem_cons.mp hc2 with rfl | hc3
      · omega
      · rcases List.mem_singleton.mp hc3 with rfl
        omega

theorem splitOnChar_ne_nil : ∀ (sep : Char) (cs : List Char), splitOnChar sep cs ≠ [] := by
  intro sep cs
  cases cs with
  | nil => simp [splitOnChar]
  | cons c t =>
    simp only [splitOnChar]
    cases hsp : splitOnChar sep t with
    | nil => simp
    | cons p ps =>
      by_cases hc : c = sep
      · simp [hc]
      · simp [hc]

theorem mem_parts_of_mem : ∀ (sep : Char) (cs : List Char) (x : Char), x ∈ cs →
    x = sep ∨ ∃ p ∈ splitOnChar sep cs, x ∈ p := by
  intro sep cs
  induction cs with
  | nil => intro x hx; cases hx
  | cons c t ih =>
    intro x hx
    rcases hsp : splitOnChar sep t with _ | ⟨p, ps⟩
    · exact absurd hsp (splitOnChar_ne_nil sep t)
    · rcases List.mem_cons.mp hx with rfl | hxt
      · by_cases hc : x = sep
        · exact Or.inl hc
        · refine Or.inr ⟨x :: p, ?_, List.mem_cons_self x p⟩
          simp [splitOnChar, hsp, hc]
      · rcases ih x hxt with hs | ⟨q, hq, hxq⟩
        · exact Or.inl hs
        · by_cases hc : c = sep
          · refine Or.inr ⟨q, ?_, hxq⟩
            simp only [splitOnChar, hsp, hc, if_true]
            exact List.mem_cons_of_mem _ (hsp ▸ hq)
          · rcases List.mem_cons.mp (hsp ▸ hq) with rfl | hq2
            · refine Or.inr ⟨c :: q, ?_, List.mem_cons_of_mem c hxq⟩
              simp [splitOnChar, hsp, hc]
            · refine Or.inr ⟨q, ?_, hxq⟩
              simp only [splitOnChar, hsp, hc, if_false]
              exact List.mem_cons_of_mem _ hq2

theorem colon_mem_of_double : ∀ cs, hasDoubleColon cs = true → ':' ∈ cs := by
  intro cs
  induction cs with
  | nil => intro h; simp [hasDoubleColon] at h
  | cons c t ih =>
    intro h
    cases t with
    | nil => simp [hasDoubleColon] at h
    | cons b t₂ =>
      have hun : hasDoubleColon (c :: b :: t₂)
          = (((c == ':') && (b == ':')) || hasDoubleColon (b :: t₂)) := rfl
      rw [hun] at h
      rw [Bool.or_eq_true] at h
      rcases h with h1 | h2
      · have hc : c = ':' := by
          have := (Bool.and_eq_true _ _).mp h1
          exact beq_iff_eq.mp this.1
        exact hc ▸ List.mem_cons_self c (b :: t₂)
      · exact List.mem_cons_of_mem c (ih h2)

theorem nil_mem_tail_parts_of_double : ∀ cs, hasDoubleColon cs = true →
    [] ∈ (splitOnChar ':' cs).tail := by
  intro cs
  induction cs with
  | nil => intro h; simp [hasDoubleColon] at h
  | cons c t ih =>
    intro h
    cases t with
    | nil => simp [hasDoubleColon] at h
    | cons b t₂ =>
      have hun : hasDoubleColon (c :: b :: t₂)
          = (((c == ':') && (b == ':')) || hasDoubleColon (b :: t₂)) := rfl
      rw [hun] at h
      have houter : splitOnChar ':' (c :: b :: t₂)
          = (match splitOnChar ':' (b :: t₂) with
             | [] => [[c]]
             | p :: ps => if c = ':' then [] :: p :: ps else (c :: p) :: ps) := rfl
      rcases hin : splitOnChar ':' (b :: t₂) with _ | ⟨q, qs⟩
      · exact absurd hin (splitOnChar_ne_nil ':' (b :: t₂))
      · rw [Bool.or_eq_true] at h
        rcases h with h1 | h2
        · have hc : c = ':' := by
            have := (Bool.and_eq_true _ _).mp h1
            exact beq_iff_eq.mp this.1
          have hb : b = ':' := by
            have := (Bool.and_eq_true _ _).mp h1
            exact beq_iff_eq.mp this.2
          subst hc
          subst hb
          rcases hint : splitOnChar ':' t₂ with _ | ⟨p, ps⟩
          · exact absurd hint (splitOnChar_ne_nil ':' t₂)
          · have hmid : splitOnChar ':' ((':' : Char) :: t₂)
                = (match splitOnChar ':' t₂ with
                   | [] => [[(':' : Char)]]
                   | p :: ps => if (':' : Char) = ':' then [] :: p :: ps
                     else ((':' : Char) :: p) :: ps) := rfl
            have hinner : splitOnChar ':' ((':' : Char) :: t₂) = [] :: p :: ps := by
              rw [hmid, hint]
              rfl
            rw [houter, hinner]
            simp only [if_pos rfl, List.tail_cons]
            exact List.mem_cons_self [] (p :: ps)
        · have hqs : [] ∈ qs := by
            have := ih h2
            rwa [hin, List.tail_cons] at this
          rw [houter, hin]
          by_cases hc : c = ':'
          · simp only [hc, if_true, List.tail_cons]
            exact List.mem_cons_of_mem q hqs
          · simp only [hc, if_false, List.tail_cons]
            exact hqs

theorem ipv4_false_of_colon_mem (s : String) (h : ':' ∈ s.data) : isValidIPv4 s = false := by
  cases hv : isValidIPv4 s with
  | false => rfl
  | true =>
    exfalso
    unfold isValidIPv4 at hv
    split at hv
    · next a b c d heq =>
      rcases mem_parts_of_mem '.' s.data ':' h with hdot | ⟨p, hp, hcol⟩
      · have : (':' : Char).toNat = ('.' : Char).toNat := by rw [hdot]
        simp at this
      · simp only [Bool.and_eq_true] at hv
        have hoct : isOctetToken p = true := by
          rw [heq] at hp
          rcases List.mem_cons.mp hp with rfl | hp2
          · exact hv.1.1.1
          · rcases List.mem_cons.mp hp2 with rfl | hp3
            · exact hv.1.1.2
            · rcases List.mem_cons.mp hp3 with rfl | hp4
              · exact hv.1.2
              · rcases List.mem_singleton.mp hp4 with rfl
                exact hv.2
        have := octet_chars_digits p hoct ':' hcol
        have hcn : (':' : Char).toNat = 58 := by decide
        omega
    · exact absurd hv (by simp)

theorem ipv6_false_of_double (s : String) (h : hasDoubleColon s.data = true) :
    isValidIPv6 s = false := by
  cases hv : isValidIPv6 s with
  | false => rfl
  | true =>
    exfalso
    have hnil : [] ∈ splitOnChar ':' s.data := by
      have htail := nil_mem_tail_parts_of_double s.data h
      rcases hsp : splitOnChar ':' s.data with _ | ⟨q, qs⟩
      · exact absurd hsp (splitOnChar_ne_nil ':' s.data)
      · rw [hsp] at htail
        exact List.mem_cons_of_mem q htail
    simp only [isValidIPv6, Bool.and_eq_true, decide_eq_true_eq, List.all_eq_true] at hv
    have := hv.2 [] hnil
    simp [isHexGroup] at this

/-- C10: the IP validator accepts only dotted-quad IPv4 strings whose
four octet tokens each denote a value between 0 and 255, or
fully-expanded eight-group IPv6 strings of one-to-four hex digits per
group; any string containing `"::"` (every compressed IPv6 form) is
rejected, and on a rejected IP the `all ip` action aborts with
`invalidIP` (exit code 1) before consulting any provider. -/
theorem c10_ip_validator :
    (∀ s, isValidIP s = true →
       (∃ a b c d, splitOnChar '.' s.data = [a, b, c, d]
          ∧ isOctetToken a = true ∧ isOctetToken b = true ∧ isOctetToken c = true
          ∧ isOctetToken d = true
          ∧ digitsValue a ≤ 255 ∧ digitsValue b ≤ 255 ∧ digitsValue c ≤ 255
          ∧ digitsValue d ≤ 255)
       ∨ ((splitOnChar ':' s.data).length = 8
          ∧ ∀ gp ∈ splitOnChar ':' s.data, isHexGroup gp = true))
    ∧ (∀ s, hasDoubleColon s.data = true → isValidIP s = false)
    ∧ (∀ inp, isValidIP inp.ip = false →
         allIpAction inp = AllIpOutcome.invalidIP ∧ exitCode (allIpAction inp) = 1) := by
  refine ⟨?_, ?_, ?_⟩
  · intro s h
    rw [isValidIP, Bool.or_eq_true] at h
    rcases h with h4 | h6
    · left
      unfold isValidIPv4 at h4
      split at h4
      · next a b c d heq =>
        simp only [Bool.and_eq_true] at h4
        exact ⟨a, b, c, d, heq, h4.1.1.1, h4.1.1.2, h4.1.2, h4.2,
          octet_value_le a h4.1.1.1, octet_value_le b h4.1.1.2,
          octet_value_le c h4.1.2, octet_value_le d h4.2⟩
      · exact absurd h4 (by simp)
    · right
      simp only [isValidIPv6, Bool.and_eq_true, decide_eq_true_eq, List.all_eq_true] at h6
      exact ⟨h6.1, h6.2⟩
  · intro s h
    have h4 := ipv4_false_of_colon_mem s (colon_mem_of_double s.data h)
    have h6 := ipv6_false_of_double s h
    simp [isValidIP, h4, h6]
  · intro inp h
    constructor
    · simp [allIpAction, h]
    · simp [allIpAction, exitCode, h]

/-- Witness for C10: `"::1"` contains `"::"`, is rejected by the
validator, and makes the `all ip` action abort with exit code 1 even
though a provider is configured; `"192.0.2.7"` and a full eight-group
IPv6 address are accepted. -/
theorem c10_ip_validator_witness :
    hasDoubleColon ("::1").data = true
    ∧ isValidIP "::1" = false
    ∧ allIpAction ⟨"::1", some (ProviderRun.ok []), none, none, none⟩
        = AllIpOutcome.invalidIP
    ∧ exitCode (allIpAction ⟨"::1", some (ProviderRun.ok []), none, none, none⟩) = 1
    ∧ isValidIP "192.0.2.7" = true
    ∧ isValidIP "2001:0db8:0000:0000:0000:ff00:0042:8329" = true := by
  have h1 : hasDoubleColon ("::1").data = true := by decide
  have h2 : isValidIP "::1" = false := c10_ip_validator.2.1 "::1" h1
  have h3 := c10_ip_validator.2.2 ⟨"::1", some (ProviderRun.ok []), none, none, none⟩ h2
  exact ⟨h1, h2, h3.1, h3.2, by decide, by decide⟩

/-- Counterexample to C2 as stated: a resource named `"x"` reported by
both DigitalOcean and GCP (and by no other provider) yields a single
entry labelled `"digitalocean"` with `inGCP = false` — not the claimed
sorted-join label `"digitalocean+gcp"` with both membership flags set:
the DigitalOcean loop hard-codes its own flags and the GCP loop skips
any identifier in the DigitalOcean name set. -/
theorem c2_counterexample :
    combineDomainData "198.51.100.4" [] []
      [⟨"droplet", "x", "198.51.100.4", none⟩]
      [⟨"compute_instance", "x", "198.51.100.4", none⟩]
      = [⟨"198.51.100.4", "x", "digitalocean", false, true, false, "droplet"⟩] := by
  decide

theorem cfDnsChain_eq_specLabel : ∀ c d g, cfDnsChain c d g = specLabelOfSet true c d g := by
  decide

theorem cooDnsChain_eq_specLabel : ∀ d g, cooDnsChain d g = specLabelOfSet false true d g := by
  decide

/-- C2 (amended): the four provider names are pairwise in lexicographic
order (so filtering them by membership is a sorted join), and
every entry `combineDomainData` emits carries as its label the generic
sorted-join rendering (`specLabelOfSet`, full set `"all"`) of a provider
set consistent with the entry's recorded membership flags; however the
recorded flags are those the emitting loop computed, and the DigitalOcean
and GCP loops record only their own provider, so (per the
counterexample) a resource reported by both DigitalOcean and GCP gets
label `"digitalocean"` with `inGCP = false` rather than
`"digitalocean+gcp"`. -/
theorem c2_amended :
    (lexLe ("cloudflare").data ("coolify").data = true
      ∧ lexLe ("coolify").data ("digitalocean").data = true
      ∧ lexLe ("digitalocean").data ("gcp").data = true)
    ∧ (∀ ip cf coo d g e, e ∈ combineDomainData ip cf coo d g →
        ∃ p : Bool, (p || e.inCoolify || e.inDigitalOcean || e.inGCP) = true
          ∧ e.dns = specLabelOfSet p e.inCoolify e.inDigitalOcean e.inGCP) := by
  refine ⟨by decide, ?_⟩
  intro ip cf coo d g e h
  have hmem : e ∈ cloudflareEntries ip cf coo d g ++ coolifyOnlyEntries ip cf coo d g
      ++ digitalOceanEntries ip cf coo d ++ gcpEntries ip cf coo d g := by
    simpa [combineDomainData] using h
  rcases List.mem_append.mp hmem with hmem | hgcp
  · rcases List.mem_append.mp hmem with hmem | hdo
    · rcases List.mem_append.mp hmem with hcf | hcoo
      · rcases List.mem_map.mp hcf with ⟨r, _, he⟩
        subst he
        exact ⟨true, rfl, cfDnsChain_eq_specLabel _ _ _⟩
      · rcases List.mem_map.mp hcoo with ⟨dom, _, he⟩
        subst he
        exact ⟨false, rfl, cooDnsChain_eq_specLabel _ _⟩
    · rcases List.mem_map.mp hdo with ⟨r, _, he⟩
      subst he
      exact ⟨false, rfl, rfl⟩
  · rcases List.mem_map.mp hgcp with ⟨r, _, he⟩
    subst he
    exact ⟨false, rfl, rfl⟩

/-- Witness for C2 (amended): the entry of `c4_dns_and_deployment_merge`
is in the engine's output and its label `"cloudflare+coolify"` is the
sorted-join rendering of a provider set consistent with its flags. -/
theorem c2_amended_witness :
    (⟨"203.0.113.9", "a.example.com", "cloudflare+coolify", true, false, false, "domain"⟩
        : CombinedDomainInfo)
      ∈ combineDomainData "203.0.113.9"
        [⟨"a.example.com", "A", "203.0.113.9", "example.com"⟩]
        [⟨"application", "web", some "a.example.com", some "running", some "203.0.113.9",
          none, some "production"⟩] [] []
    ∧ ∃ p : Bool, (p || true || false || false) = true
        ∧ "cloudflare+coolify" = specLabelOfSet p true false false := by
  refine ⟨by decide, ?_⟩
  exact c2_amended.2 "203.0.113.9"
    [⟨"a.example.com", "A", "203.0.113.9", "example.com"⟩]
    [⟨"application", "web", some "a.example.com", some "running", some "203.0.113.9",
      none, some "production"⟩] [] []
    ⟨"203.0.113.9", "a.example.com", "cloudflare+coolify", true, false, false, "domain"⟩
    (by decide)

theorem cf_entry_keys (ip : String) (cf : List DNSRecord) (coo : List CoolifyResource)
    (d : List DOResource) (g : List GCPResource) :
    (cloudflareEntries ip cf coo d g).map (fun e => e.domain) = cf.map (fun r => r.name) := by
  simp only [cloudflareEntries, List.map_map]
  rfl

theorem coo_entry_keys (ip : String) (cf : List DNSRecord) (coo : List CoolifyResource)
    (d : List DOResource) (g : List GCPResource) :
    (coolifyOnlyEntries ip cf coo d g).map (fun e => e.domain)
      = (coolifyDomains coo).filter (fun dom => !((cloudflareDomains cf).contains dom)) := by
  simp only [coolifyOnlyEntries, List.map_map]
  exact List.map_id _

theorem do_entry_keys (ip : String) (cf : List DNSRecord) (coo : List CoolifyResource)
    (d : List DOResource) :
    (digitalOceanEntries ip cf coo d).map (fun e => e.domain)
      = (d.filter (fun r =>
          !((cloudflareDomains cf).contains (doIdentifier r)
            || (coolifyDomains coo).contains (doIdentifier r)))).map doIdentifier := by
  simp only [digitalOceanEntries, List.map_map]
  rfl

theorem gcp_entry_keys (ip : String) (cf : List DNSRecord) (coo : List CoolifyResource)
    (d : List DOResource) (g : List GCPResource) :
    (gcpEntries ip cf coo d g).map (fun e => e.domain)
      = (g.filter (fun r =>
          !((cloudflareDomains cf).contains (gcpIdentifier r)
            || (coolifyDomains coo).contains (gcpIdentifier r)
            || (digitalOceanResourceNames d).contains (gcpIdentifier r)))).map gcpIdentifier := by
  simp only [gcpEntries, List.map_map]
  rfl

theorem bnot_or2_eq_true {a b : Bool} (h : (!(a || b)) = true) : a = false ∧ b = false := by
  cases a <;> cases b <;> simp_all

theorem bnot_or3_eq_true {a b c : Bool} (h : (!(a || b || c)) = true) :
    a = false ∧ b = false ∧ c = false := by
  cases a <;> cases b <;> cases c <;> simp_all

theorem not_mem_of_contains_eq_false {l : List String} {a : String}
    (h : l.contains a = false) : a ∉ l := by
  intro hm
  rw [contains_iff_mem.mpr hm] at h
  cases h

/-- Counterexample to C1 as stated: two Cloudflare records with the same
name produce two canonical entries with the same identifier — the engine
deduplicates only Coolify FQDNs, so the output is not one entry per
distinct identifier. -/
theorem c1_counterexample :
    combineDomainData "203.0.113.9"
      [⟨"a.example.com", "A", "203.0.113.9", "z"⟩, ⟨"a.example.com", "A", "203.0.113.9", "z"⟩]
      [] [] []
      = [⟨"203.0.113.9", "a.example.com", "cloudflare", false, false, false, "domain"⟩,
         ⟨"203.0.113.9", "a.example.com", "cloudflare", false, false, false, "domain"⟩]
    ∧ ¬((combineDomainData "203.0.113.9"
        [⟨"a.example.com", "A", "203.0.113.9", "z"⟩, ⟨"a.example.com", "A", "203.0.113.9", "z"⟩]
        [] [] []).map (fun e => e.domain)).Nodup := by
  exact ⟨by decide, by decide⟩

theorem combined_keys_nodup : ∀ (ip : String) cf coo d g,
    (cf.map (fun r => r.name)).Nodup →
    (d.map doIdentifier).Nodup →
    (g.map gcpIdentifier).Nodup →
    (∀ r ∈ g, gcpIdentifier r ∉ digitalOceanDomains d) →
    ((combineDomainData ip cf coo d g).map (fun e => e.domain)).Nodup := by
  intro ip cf coo d g h1 h2 h3 h4
  have hperm : List.Perm (combineDomainData ip cf coo d g)
      (cloudflareEntries ip cf coo d g ++ coolifyOnlyEntries ip cf coo d g
        ++ digitalOceanEntries ip cf coo d ++ gcpEntries ip cf coo d g) :=
    List.perm_insertionSort entryLe _
  rw [(hperm.map (fun e => e.domain)).nodup_iff]
  rw [List.map_append, List.map_append, List.map_append,
    cf_entry_keys, coo_entry_keys, do_entry_keys, gcp_entry_keys]
  have hn2 : ((coolifyDomains coo).filter
      (fun dom => !((cloudflareDomains cf).contains dom))).Nodup :=
    (nodup_dedupFirst _).filter _
  have hn3 : ((d.filter (fun r =>
      !((cloudflareDomains cf).contains (doIdentifier r)
        || (coolifyDomains coo).contains (doIdentifier r)))).map doIdentifier).Nodup :=
    ((List.filter_sublist d).map doIdentifier).nodup h2
  have hn4 : ((g.filter (fun r =>
      !((cloudflareDomains cf).contains (gcpIdentifier r)
        || (coolifyDomains coo).contains (gcpIdentifier r)
        || (digitalOceanResourceNames d).contains (gcpIdentifier r)))).map gcpIdentifier).Nodup :=
    ((List.filter_sublist g).map gcpIdentifier).nodup h3
  have hd12 : (cf.map (fun r => r.name)).Disjoint
      ((coolifyDomains coo).filter (fun dom => !((cloudflareDomains cf).contains dom))) := by
    intro a ha hb
    have hfil := (List.mem_filter.mp hb).2
    have hcf : (cloudflareDomains cf).contains a = false := by
      cases hcc : (cloudflareDomains cf).contains a
      · rfl
      · rw [hcc] at hfil; cases hfil
    exact not_mem_of_contains_eq_false hcf (mem_dedupFirst.mpr ha)
  have hd13 : (cf.map (fun r => r.name)).Disjoint
      ((d.filter (fun r =>
        !((cloudflareDomains cf).contains (doIdentifier r)
          || (coolifyDomains coo).contains (doIdentifier r)))).map doIdentifier) := by
    intro a ha hb
    rcases List.mem_map.mp hb with ⟨r, hr, hra⟩
    obtain ⟨hcf, _⟩ := bnot_or2_eq_true ((List.mem_filter.mp hr).2)
    exact not_mem_of_contains_eq_false (hra ▸ hcf) (mem_dedupFirst.mpr ha)
  have hd14 : (cf.map (fun r => r.name)).Disjoint
      ((g.filter (fun r =>
        !((cloudflareDomains cf).contains (gcpIdentifier r)
          || (coolifyDomains coo).contains (gcpIdentifier r)
          || (digitalOceanResourceNames d).contains (gcpIdentifier r)))).map gcpIdentifier) := by
    intro a ha hb
    rcases List.mem_map.mp hb with ⟨r, hr, hra⟩
    obtain ⟨hcf, _, _⟩ := bnot_or3_eq_true ((List.mem_filter.mp hr).2)
    exact not_mem_of_contains_eq_false (hra ▸ hcf) (mem_dedupFirst.mpr ha)
  have hd23 : ((coolifyDomains coo).filter
      (fun dom => !((cloudflareDomains cf).contains dom))).Disjoint
      ((d.filter (fun r =>
        !((cloudflareDomains cf).contains (doIdentifier r)
          || (coolifyDomains coo).contains (doIdentifier r)))).map doIdentifier) := by
    intro a ha hb
    have hacoo : a ∈ coolifyDomains coo := (List.mem_filter.mp ha).1
    rcases List.mem_map.mp hb with ⟨r, hr, hra⟩
    obtain ⟨_, hcoo⟩ := bnot_or2_eq_true ((List.mem_filter.mp hr).2)
    exact not_mem_of_contains_eq_false (hra ▸ hcoo) hacoo
  have hd24 : ((coolifyDomains coo).filter
      (fun dom => !((cloudflareDomains cf).contains dom))).Disjoint
      ((g.filter (fun r =>
        !((cloudflareDomains cf).contains (gcpIdentifier r)
          || (coolifyDomains coo).contains (gcpIdentifier r)
          || (digitalOceanResourceNames d).contains (gcpIdentifier r)))).map gcpIdentifier) := by
    intro a ha hb
    have hacoo : a ∈ coolifyDomains coo := (List.mem_filter.mp ha).1
    rcases List.mem_map.mp hb with ⟨r, hr, hra⟩
    obtain ⟨_, hcoo, _⟩ := bnot_or3_eq_true ((List.mem_filter.mp hr).2)
    exact not_mem_of_contains_eq_false (hra ▸ hcoo) hacoo
  have hd34 : ((d.filter (fun r =>
      !((cloudflareDomains cf).contains (doIdentifier r)
        || (coolifyDomains coo).contains (doIdentifier r)))).map doIdentifier).Disjoint
      ((g.filter (fun r =>
        !((cloudflareDomains cf).contains (gcpIdentifier r)
          || (coolifyDomains coo).contains (gcpIdentifier r)
          || (digitalOceanResourceNames d).contains (gcpIdentifier r)))).map gcpIdentifier) := by
    intro a ha hb
    rcases List.mem_map.mp ha with ⟨r, hr, hra⟩
    rcases List.mem_map.mp hb with ⟨q, hq, hqa⟩
    have hrd : r ∈ d := (List.mem_filter.mp hr).1
    have hqg : q ∈ g := (List.mem_filter.mp hq).1
    obtain ⟨_, _, hdo⟩ := bnot_or3_eq_true ((List.mem_filter.mp hq).2)
    by_cases hdom : jsStrTruthy r.domain = true
    · have hmemdom : doIdentifier r ∈ digitalOceanDomains d := by
        rw [digitalOceanDomains, mem_dedupFirst]
        refine List.mem_filterMap.mpr ⟨r, hrd, ?_⟩
        simp [doIdentifier, hdom]
      have heq : gcpIdentifier q = doIdentifier r := hqa.trans hra.symm
      exact h4 q hqg (heq ▸ hmemdom)
    · have hname : doIdentifier r = r.name := by
        simp only [doIdentifier]
        rw [if_neg]
        intro hcon
        exact hdom hcon
      have hmemname : gcpIdentifier q ∈ digitalOceanResourceNames d := by
        rw [digitalOceanResourceNames, mem_dedupFirst]
        have heq : gcpIdentifier q = r.name := (hqa.trans hra.symm).trans hname
        rw [heq]
        exact List.mem_map_of_mem _ hrd
      exact not_mem_of_contains_eq_false hdo hmemname
  refine List.nodup_append.mpr ⟨?_, hn4, ?_⟩
  · refine List.nodup_append.mpr ⟨?_, hn3, ?_⟩
    · exact List.nodup_append.mpr ⟨h1, hn2, hd12⟩
    · exact List.disjoint_append_left.mpr ⟨hd13, hd23⟩
  · refine List.disjoint_append_left.mpr ⟨?_, hd34⟩
    exact List.disjoint_append_left.mpr ⟨hd14, hd24⟩

/-- C1 (amended): the canonical inventory has pairwise-distinct
identifiers provided the raw lists themselves carry no duplicate
identifiers and no GCP identifier collides with a DigitalOcean
domain-record domain: distinct Cloudflare record names, distinct
DigitalOcean identifiers, distinct GCP identifiers, and no GCP identifier
in the DigitalOcean domain set.  Without these hypotheses the invariant
fails (see the counterexample: only Coolify FQDNs are deduplicated). -/
theorem c1_amended : ∀ (ip : String) cf coo d g,
    (cf.map (fun r => r.name)).Nodup →
    (d.map doIdentifier).Nodup →
    (g.map gcpIdentifier).Nodup →
    (∀ r ∈ g, gcpIdentifier r ∉ digitalOceanDomains d) →
    ((combineDomainData ip cf coo d g).map (fun e => e.domain)).Nodup :=
  combined_keys_nodup

/-- Witness for C1 (amended): with one Cloudflare record, one Coolify
resource, one DigitalOcean droplet and one GCP instance, all identifiers
distinct, the canonical inventory's identifiers are pairwise distinct. -/
theorem c1_amended_witness :
    (([⟨"a.example.com", "A", "203.0.113.9", "z"⟩] : List DNSRecord).map
      (fun r => r.name)).Nodup
    ∧ (([⟨"droplet", "web-1", "203.0.113.9", none⟩] : List DOResource).map doIdentifier).Nodup
    ∧ (([⟨"compute_instance", "vm-1", "203.0.113.9", none⟩] : List GCPResource).map
        gcpIdentifier).Nodup
    ∧ (∀ r ∈ ([⟨"compute_instance", "vm-1", "203.0.113.9", none⟩] : List GCPResource),
        gcpIdentifier r ∉ digitalOceanDomains [⟨"droplet", "web-1", "203.0.113.9", none⟩])
    ∧ ((combineDomainData "203.0.113.9"
        [⟨"a.example.com", "A", "203.0.113.9", "z"⟩]
        [⟨"application", "web", some "b.example.com", some "running", none, none, none⟩]
        [⟨"droplet", "web-1", "203.0.113.9", none⟩]
        [⟨"compute_instance", "vm-1", "203.0.113.9", none⟩]).map (fun e => e.domain)).Nodup := by
  refine ⟨by decide, by decide, by decide, by decide, ?_⟩
  exact c1_amended "203.0.113.9"
    [⟨"a.example.com", "A", "203.0.113.9", "z"⟩]
    [⟨"application", "web", some "b.example.com", some "running", none, none, none⟩]
    [⟨"droplet", "web-1", "203.0.113.9", none⟩]
    [⟨"compute_instance", "vm-1", "203.0.113.9", none⟩]
    (by decide) (by decide) (by decide) (by decide)

theorem cloudflareDomains_contains_of_perm {cf' cf : List DNSRecord}
    (h : List.Perm cf' cf) : ∀ x, (cloudflareDomains cf').contains x
      = (cloudflareDomains cf).contains x := by
  intro x
  rw [Bool.eq_iff_iff, contains_iff_mem, contains_iff_mem, cloudflareDomains,
    cloudflareDomains, mem_dedupFirst, mem_dedupFirst]
  exact (h.map _).mem_iff

theorem coolifyDomains_contains_of_perm {coo' coo : List CoolifyResource}
    (h : List.Perm coo' coo) : ∀ x, (coolifyDomains coo').contains x
      = (coolifyDomains coo).contains x := by
  intro x
  rw [Bool.eq_iff_iff, contains_iff_mem, contains_iff_mem, coolifyDomains,
    coolifyDomains, mem_dedupFirst, mem_dedupFirst]
  exact (h.filterMap _).mem_iff

theorem digitalOceanDomains_contains_of_perm {d' d : List DOResource}
    (h : List.Perm d' d) : ∀ x, (digitalOceanDomains d').contains x
      = (digitalOceanDomains d).contains x := by
  intro x
  rw [Bool.eq_iff_iff, contains_iff_mem, contains_iff_mem, digitalOceanDomains,
    digitalOceanDomains, mem_dedupFirst, mem_dedupFirst]
  exact (h.filterMap _).mem_iff

theorem digitalOceanResourceNames_contains_of_perm {d' d : List DOResource}
    (h : List.Perm d' d) : ∀ x, (digitalOceanResourceNames d').contains x
      = (digitalOceanResourceNames d).contains x := by
  intro x
  rw [Bool.eq_iff_iff, contains_iff_mem, contains_iff_mem, digitalOceanResourceNames,
    digitalOceanResourceNames, mem_dedupFirst, mem_dedupFirst]
  exact (h.map _).mem_iff

theorem gcpResourceNames_contains_of_perm {g' g : List GCPResource}
    (h : List.Perm g' g) : ∀ x, (gcpResourceNames g').contains x
      = (gcpResourceNames g).contains x := by
  intro x
  rw [Bool.eq_iff_iff, contains_iff_mem, contains_iff_mem, gcpResourceNames,
    gcpResourceNames, mem_dedupFirst, mem_dedupFirst]
  exact (h.map _).mem_iff

theorem gcpUrls_contains_of_perm {g' g : List GCPResource}
    (h : List.Perm g' g) : ∀ x, (gcpUrls g').contains x = (gcpUrls g).contains x := by
  intro x
  rw [Bool.eq_iff_iff, contains_iff_mem, contains_iff_mem, gcpUrls, gcpUrls,
    mem_dedupFirst, mem_dedupFirst]
  exact (h.filterMap _).mem_iff

theorem coolifyDomains_perm {coo' coo : List CoolifyResource} (h : List.Perm coo' coo) :
    List.Perm (coolifyDomains coo') (coolifyDomains coo) := by
  refine perm_of_nodup_of_mem_iff (nodup_dedupFirst _) (nodup_dedupFirst _) (fun x => ?_)
  rw [coolifyDomains, coolifyDomains, mem_dedupFirst, mem_dedupFirst]
  exact (h.filterMap _).mem_iff

theorem cloudflareEntries_perm (ip : String) {cf' cf coo' coo d' d g' g}
    (hcf : List.Perm cf' cf) (hcoo : List.Perm coo' coo) (hd : List.Perm d' d)
    (hg : List.Perm g' g) :
    List.Perm (cloudflareEntries ip cf' coo' d' g') (cloudflareEntries ip cf coo d g) := by
  have hmapeq : cloudflareEntries ip cf' coo' d' g' = cloudflareEntries ip cf' coo d g := by
    unfold cloudflareEntries
    apply List.map_congr_left
    intro r _
    simp only [coolifyDomains_contains_of_perm hcoo, digitalOceanDomains_contains_of_perm hd,
      digitalOceanResourceNames_contains_of_perm hd, gcpResourceNames_contains_of_perm hg,
      gcpUrls_contains_of_perm hg]
  rw [hmapeq]
  unfold cloudflareEntries
  exact hcf.map _

theorem coolifyOnlyEntries_perm (ip : String) {cf' cf coo' coo d' d g' g}
    (hcf : List.Perm cf' cf) (hcoo : List.Perm coo' coo) (hd : List.Perm d' d)
    (hg : List.Perm g' g) :
    List.Perm (coolifyOnlyEntries ip cf' coo' d' g') (coolifyOnlyEntries ip cf coo d g) := by
  have hmapeq : coolifyOnlyEntries ip cf' coo' d' g' = coolifyOnlyEntries ip cf coo' d g := by
    unfold coolifyOnlyEntries
    rw [List.filter_congr (fun dom _ => by
      rw [cloudflareDomains_contains_of_perm hcf])]
    apply List.map_congr_left
    intro dom _
    simp only [digitalOceanDomains_contains_of_perm hd,
      digitalOceanResourceNames_contains_of_perm hd, gcpResourceNames_contains_of_perm hg,
      gcpUrls_contains_of_perm hg]
  rw [hmapeq]
  unfold coolifyOnlyEntries
  exact ((coolifyDomains_perm hcoo).filter _).map _

theorem digitalOceanEntries_perm (ip : String) {cf' cf coo' coo d' d}
    (hcf : List.Perm cf' cf) (hcoo : List.Perm coo' coo) (hd : List.Perm d' d) :
    List.Perm (digitalOceanEntries ip cf' coo' d') (digitalOceanEntries ip cf coo d) := by
  have hmapeq : digitalOceanEntries ip cf' coo' d' = digitalOceanEntries ip cf coo d' := by
    unfold digitalOceanEntries
    rw [List.filter_congr (fun r _ => by
      rw [cloudflareDomains_contains_of_perm hcf, coolifyDomains_contains_of_perm hcoo])]
  rw [hmapeq]
  unfold digitalOceanEntries
  exact (hd.filter _).map _

theorem gcpEntries_perm (ip : String) {cf' cf coo' coo d' d g' g}
    (hcf : List.Perm cf' cf) (hcoo : List.Perm coo' coo) (hd : List.Perm d' d)
    (hg : List.Perm g' g) :
    List.Perm (gcpEntries ip cf' coo' d' g') (gcpEntries ip cf coo d g) := by
  have hmapeq : gcpEntries ip cf' coo' d' g' = gcpEntries ip cf coo d g' := by
    unfold gcpEntries
    rw [List.filter_congr (fun r _ => by
      rw [cloudflareDomains_contains_of_perm hcf, coolifyDomains_contains_of_perm hcoo,
        digitalOceanResourceNames_contains_of_perm hd])]
  rw [hmapeq]
  unfold gcpEntries
  exact (hg.filter _).map _

/-- Counterexample to C3 as stated: reordering the DigitalOcean raw list
(two resources sharing the name `"x"` but of different types) changes the
canonical output — the stable sort keeps equal identifiers in discovery
order, so the merge is not order-independent on duplicate identifiers. -/
theorem c3_counterexample :
    List.Perm
      [(⟨"droplet", "x", "198.51.100.4", none⟩ : DOResource),
        ⟨"load_balancer", "x", "198.51.100.4", none⟩]
      [⟨"load_balancer", "x", "198.51.100.4", none⟩, ⟨"droplet", "x", "198.51.100.4", none⟩]
    ∧ combineDomainData "198.51.100.4" [] []
        [⟨"droplet", "x", "198.51.100.4", none⟩, ⟨"load_balancer", "x", "198.51.100.4", none⟩] []
      ≠ combineDomainData "198.51.100.4" [] []
        [⟨"load_balancer", "x", "198.51.100.4", none⟩, ⟨"droplet", "x", "198.51.100.4", none⟩] [] := by
  exact ⟨by decide, by decide⟩

/-- C3 (amended): the reconciliation engine is a pure function (running
it twice over identical inputs trivially yields identical output), its
output is always sorted by identifier, and it is order-independent —
identical canonical output under any permutation of the four raw input
lists — provided the raw lists carry pairwise-distinct identifiers (the
hypotheses of the C1 amendment); with duplicate identifiers in one raw
list, order independence fails (see the counterexample). -/
theorem c3_amended :
    (∀ ip cf coo d g, (combineDomainData ip cf coo d g).Sorted entryLe)
    ∧ (∀ (ip : String) cf coo d g cf' coo' d' g',
        (cf.map (fun r => r.name)).Nodup →
        (d.map doIdentifier).Nodup →
        (g.map gcpIdentifier).Nodup →
        (∀ r ∈ g, gcpIdentifier r ∉ digitalOceanDomains d) →
        List.Perm cf' cf → List.Perm coo' coo → List.Perm d' d → List.Perm g' g →
        combineDomainData ip cf' coo' d' g' = combineDomainData ip cf coo d g) := by
  constructor
  · exact sorted_combineDomainData
  · intro ip cf coo d g cf' coo' d' g' h1 h2 h3 h4 hcf hcoo hd hg
    have hent : List.Perm
        (cloudflareEntries ip cf' coo' d' g' ++ coolifyOnlyEntries ip cf' coo' d' g'
          ++ digitalOceanEntries ip cf' coo' d' ++ gcpEntries ip cf' coo' d' g')
        (cloudflareEntries ip cf coo d g ++ coolifyOnlyEntries ip cf coo d g
          ++ digitalOceanEntries ip cf coo d ++ gcpEntries ip cf coo d g) :=
      (((cloudflareEntries_perm ip hcf hcoo hd hg).append
          (coolifyOnlyEntries_perm ip hcf hcoo hd hg)).append
        (digitalOceanEntries_perm ip hcf hcoo hd)).append
        (gcpEntries_perm ip hcf hcoo hd hg)
    have hp : List.Perm (combineDomainData ip cf' coo' d' g')
        (combineDomainData ip cf coo d g) :=
      ((List.perm_insertionSort entryLe _).trans hent).trans
        (List.perm_insertionSort entryLe _).symm
    have hnd : ((combineDomainData ip cf coo d g).map (fun e => e.domain)).Nodup :=
      combined_keys_nodup ip cf coo d g h1 h2 h3 h4
    have hnd' : ((combineDomainData ip cf' coo' d' g').map (fun e => e.domain)).Nodup :=
      ((hp.map (fun e => e.domain)).nodup_iff).mpr hnd
    exact sorted_nodup_keys_eq _ _ hp (sorted_combineDomainData ip cf' coo' d' g')
      (sorted_combineDomainData ip cf coo d g) hnd'

/-- Witness for C3 (amended): with distinct identifiers, swapping both
the Cloudflare and the DigitalOcean raw lists leaves the canonical
output unchanged. -/
theorem c3_amended_witness :
    (([⟨"a.example.com", "A", "203.0.113.9", "z"⟩, ⟨"b.example.com", "A", "203.0.113.9", "z"⟩]
        : List DNSRecord).map (fun r => r.name)).Nodup
    ∧ combineDomainData "203.0.113.9"
        [⟨"b.example.com", "A", "203.0.113.9", "z"⟩, ⟨"a.example.com", "A", "203.0.113.9", "z"⟩]
        []
        [⟨"load_balancer", "lb-1", "203.0.113.9", none⟩, ⟨"droplet", "web-1", "203.0.113.9", none⟩]
        []
      = combineDomainData "203.0.113.9"
        [⟨"a.example.com", "A", "203.0.113.9", "z"⟩, ⟨"b.example.com", "A", "203.0.113.9", "z"⟩]
        []
        [⟨"droplet", "web-1", "203.0.113.9", none⟩, ⟨"load_balancer", "lb-1", "203.0.113.9", none⟩]
        [] := by
  refine ⟨by decide, ?_⟩
  exact c3_amended.2 "203.0.113.9"
    [⟨"a.example.com", "A", "203.0.113.9", "z"⟩, ⟨"b.example.com", "A", "203.0.113.9", "z"⟩]
    []
    [⟨"droplet", "web-1", "203.0.113.9", none⟩, ⟨"load_balancer", "lb-1", "203.0.113.9", none⟩]
    []
    [⟨"b.example.com", "A", "203.0.113.9", "z"⟩, ⟨"a.example.com", "A", "203.0.113.9", "z"⟩]
    []
    [⟨"load_balancer", "lb-1", "203.0.113.9", none⟩, ⟨"droplet", "web-1", "203.0.113.9", none⟩]
    []
    (by decide) (by decide) (by decide) (by decide)
    (by decide) (by decide) (by decide) (by decide)
